import Mathlib

/-!
# VibeCity simulation core — shallow embedding and verification

This file embeds the simulation core of the VibeCity arcade driving game
(`src/js/car.js` and the `Game` class in `src/unnamed/part_000`) as executable
Lean definitions over exact rational arithmetic, and proves or refutes the
frozen specification claims against that embedding.

Modelling conventions:
* JavaScript `number` arithmetic is modelled over `ℚ` (exact arithmetic; the
  source relies on no floating-point-specific behaviour in the verified paths).
* `THREE.Vector3` is the structure `Vec3` below; Euler angles are a `Vec3`
  of (x = pitch, y = yaw, z = roll), always in the source's `XYZ` order.
* Transcendental functions (`Math.sin`, `Math.cos`, `Math.atan2`, `Math.PI`)
  have no exact rational counterpart; they are passed in as an explicit
  parameter pack `Trig`.  Every theorem below either holds for all such packs
  or instantiates a concrete pack at angle `0`, where the exact values are
  rational.
* `Math.sqrt` (inside `Vector3.length` / `normalize` / `distanceTo`) is
  modelled by `ratSqrt`, which is exact precisely when the true square root is
  rational; theorems that depend on a normalisation carry an explicit
  `HasRatLen` hypothesis stating that the vector being normalised has rational
  length, and the comparisons `distanceTo(p) < r` / `> r` that the source
  performs against *nonnegative* thresholds are embedded by the exactly
  equivalent squared comparisons `distSq < r*r` / `> r*r`.
-/

/-- 3D vector with rational coordinates, modelling `THREE.Vector3`. -/
structure Vec3 where
  x : ℚ
  y : ℚ
  z : ℚ
deriving DecidableEq, Repr

namespace Vec3

/-- Vector addition (`Vector3.add`). -/
def add (a b : Vec3) : Vec3 := ⟨a.x + b.x, a.y + b.y, a.z + b.z⟩

/-- Vector subtraction (`Vector3.sub`). -/
def sub (a b : Vec3) : Vec3 := ⟨a.x - b.x, a.y - b.y, a.z - b.z⟩

/-- Scalar multiplication (`Vector3.multiplyScalar`). -/
def smul (k : ℚ) (a : Vec3) : Vec3 := ⟨k * a.x, k * a.y, k * a.z⟩

/-- Dot product (`Vector3.dot`). -/
def dot (a b : Vec3) : ℚ := a.x * b.x + a.y * b.y + a.z * b.z

/-- Squared length (`Vector3.lengthSq`). -/
def magSq (a : Vec3) : ℚ := a.x * a.x + a.y * a.y + a.z * a.z

/-- Squared distance (`Vector3.distanceToSquared`). -/
def distSq (a b : Vec3) : ℚ := magSq (sub a b)

/-- The zero vector. -/
def zero : Vec3 := ⟨0, 0, 0⟩

end Vec3

/-- Rational square root: exact whenever the argument is the square of a
rational (numerator and denominator of the reduced fraction are perfect
squares); otherwise some rational approximation.  Models `Math.sqrt`, which
the verified theorems only rely on at arguments with rational roots (tracked
by the `HasRatLen` hypothesis). -/
def ratSqrt (q : ℚ) : ℚ := (Nat.sqrt q.num.toNat : ℚ) / (Nat.sqrt q.den : ℚ)

/-- Length (`Vector3.length`), via `ratSqrt`. -/
def Vec3.length (a : Vec3) : ℚ := ratSqrt a.magSq

/-- Normalisation (`Vector3.normalize`): divide by the length.  In `ℚ`,
division by zero yields zero, so the zero vector normalises to itself; the
source produces NaNs there and every verified path excludes that case. -/
def Vec3.normalize (a : Vec3) : Vec3 := Vec3.smul (1 / a.length) a

/-- `HasRatLen v` says the embedded square root is exact on `v`'s squared
length, i.e. `v`'s Euclidean length is a rational number. -/
def HasRatLen (v : Vec3) : Prop := ratSqrt v.magSq * ratSqrt v.magSq = v.magSq

instance (v : Vec3) : Decidable (HasRatLen v) := by
  unfold HasRatLen; infer_instance

/-- `ratSqrt` is exact on squares of naturals. -/
theorem ratSqrt_of_sq (n : ℕ) (q : ℚ) (h : q = (n : ℚ) * (n : ℚ)) :
    ratSqrt q = n := by
  subst h
  have hq : ((n : ℚ) * (n : ℚ)) = ((n * n : ℕ) : ℚ) := by push_cast; ring
  rw [hq]
  unfold ratSqrt
  rw [Rat.num_natCast, Rat.den_natCast]
  rw [Int.toNat_natCast, Nat.sqrt_eq, Nat.sqrt_one]
  simp

/-- JavaScript `Math.sign` (on rationals). -/
def qsign (q : ℚ) : ℚ := if q > 0 then 1 else if q < 0 then -1 else 0

/-- Parameter pack for the transcendental functions the source uses
(`Math.sin`, `Math.cos`, `Math.atan2`, `Math.PI`).  Theorems hold for every
pack, or instantiate `trig0`, which is exact at angle `0` (the only angle the
concrete runs evaluate). -/
structure Trig where
  sin : ℚ → ℚ
  cos : ℚ → ℚ
  atan2 : ℚ → ℚ → ℚ
  pi : ℚ

/-- A concrete `Trig` pack, exact at angle `0` (`sin 0 = 0`, `cos 0 = 1`),
used by the closed counterexample evaluations, all of which only ever take
sines and cosines of the angle `0`. -/
def trig0 : Trig := ⟨fun _ => 0, fun _ => 1, fun _ _ => 0, 3⟩

/-- `THREE.Euler` application in the default `XYZ` order
(`Vector3.applyEuler` with rotation `e`): `v ↦ Rz(e.z)·Ry(e.y)·Rx(e.x)·v`. -/
def applyEulerXYZ (t : Trig) (e v : Vec3) : Vec3 :=
  let v1 : Vec3 := ⟨v.x, t.cos e.x * v.y - t.sin e.x * v.z,
                    t.sin e.x * v.y + t.cos e.x * v.z⟩
  let v2 : Vec3 := ⟨t.cos e.y * v1.x + t.sin e.y * v1.z, v1.y,
                    -(t.sin e.y) * v1.x + t.cos e.y * v1.z⟩
  ⟨t.cos e.z * v2.x - t.sin e.z * v2.y,
   t.sin e.z * v2.x + t.cos e.z * v2.y, v2.z⟩

/-- `Vector3.applyAxisAngle` for the axis `(0,1,0)` (the only axis the source
uses): rotation about the vertical axis by `a`. -/
def applyAxisAngleY (t : Trig) (a : ℚ) (v : Vec3) : Vec3 :=
  ⟨t.cos a * v.x + t.sin a * v.z, v.y, -(t.sin a) * v.x + t.cos a * v.z⟩

/-! ## Car constants (fields set in the `Car` constructor, `car.js` 11–50) -/

/-- `this.maxSpeed = 40` (`car.js` 28). -/
def carMaxSpeed : ℚ := 40

/-- `this.acceleration = 25` (`car.js` 29). -/
def carAcceleration : ℚ := 25

/-- `this.braking = 35` (`car.js` 30). -/
def carBraking : ℚ := 35

/-- `this.deceleration = 8` (`car.js` 31). -/
def carDeceleration : ℚ := 8

/-- `this.gravity = 20` (`car.js` 21). -/
def carGravity : ℚ := 20

/-- `this.turnInertia = 0.15` (`car.js` 36). -/
def turnInertia : ℚ := 0.15

/-- `this.boundingRadius = 1.8` (`car.js` 39). -/
def carBoundingRadius : ℚ := 1.8

/-- `this.bounceFactor = 0.3` (`car.js` 42). -/
def bounceFactor : ℚ := 0.3

/-- `this.driftThreshold = 0.6` (`car.js` 46). -/
def driftThreshold : ℚ := 0.6

/-! ## Steering intensity (`Car.getSteeringIntensity`, `car.js` 978–993) -/

/-- The steering-intensity value as a function of the normalized speed
`s = |speed| / maxSpeed` — the branch structure of
`Car.getSteeringIntensity` (`car.js` 983–992). -/
def steeringIntensityFn (s : ℚ) : ℚ :=
  if s < 0.2 then 1.2
  else if s < 0.6 then 1.0
  else 0.8 - (s - 0.6) * 0.3

/-- `Car.getSteeringIntensity` (`car.js` 978–993): computes the normalized
speed from the signed scalar speed and branches on it. -/
def getSteeringIntensity (speed : ℚ) : ℚ :=
  steeringIntensityFn (|speed| / carMaxSpeed)

/-- Pointwise (ε-δ) continuity of `f` at every point of `S`, within `S` —
the formalisation of “continuous as a function on `S`”. -/
def QContinuousOn (f : ℚ → ℚ) (S : Set ℚ) : Prop :=
  ∀ c ∈ S, ∀ ε : ℚ, 0 < ε →
    ∃ δ : ℚ, 0 < δ ∧ ∀ s ∈ S, |s - c| < δ → |f s - f c| < ε

/-! ## Boost state (`Game.setupSpeedBoost`, part_000 2440–2454;
`Game.updateBoost`, part_000 3847–3859) -/

/-- The boost resource (`this.boost` object, part_000 2442–2453).
`trailParticles` is presentation-only and omitted. -/
structure BoostState where
  available : ℚ
  max : ℚ
  rechargeRate : ℚ
  depleteRate : ℚ
  active : Bool
  speedMultiplier : ℚ
  currentMultiplier : ℚ
  transitionSpeed : ℚ
deriving DecidableEq, Repr

/-- `Game.setupSpeedBoost` (part_000 2440–2454): the initial boost state. -/
def setupSpeedBoost : BoostState :=
  { available := 100, max := 100, rechargeRate := 10, depleteRate := 30,
    active := false, speedMultiplier := 1.8, currentMultiplier := 1.0,
    transitionSpeed := 2.0 }

/-- `Game.updateBoost` (part_000 3847–3859): deplete while active with boost
left, otherwise recharge; both clamped.  (The trailing boost-meter UI update
is presentation-only.) -/
def updateBoost (dt : ℚ) (b : BoostState) : BoostState :=
  if b.active ∧ b.available > 0 then
    { b with available := max 0 (b.available - b.depleteRate * dt) }
  else
    { b with available := min b.max (b.available + b.rechargeRate * dt) }

/-- `Game.addScore` (part_000 3965–3972): the sole mutation of the session
score (the rest of the function updates the score display). -/
def addScore (score points : ℚ) : ℚ := score + points

/-! ## Input snapshot (`InputHandler.isKeyDown`, read once per tick) -/

/-- Tick-consistent key-state snapshot.  `up` stands for `ArrowUp`/`w`,
`down` for `ArrowDown`/`s`, `left` for `ArrowLeft`/`a`, `right` for
`ArrowRight`/`d`. -/
structure Input where
  up : Bool
  down : Bool
  left : Bool
  right : Bool
deriving DecidableEq, Repr

/-! ## Obstacles (`Car.checkCollisions` / `Car.checkBoxCollision`,
`car.js` 822–976) -/

/-- Obstacle kind tag (the source's `obstacle.type` string).  `building`,
`skyscraper`, `boundary` and `stadium` take the box-collision path
(`car.js` 827–828); every other kind falls through to the bounding-sphere
test. -/
inductive ObstacleKind where
  | building | skyscraper | boundary | stadium | other
deriving DecidableEq, Repr

/-- A static obstacle.  `hasGeom` models the presence of
`obstacle.mesh.geometry.parameters` (`car.js` 862–868); `width`, `depth` and
`rotY` are the box footprint read from those parameters and from
`obstacle.mesh.rotation.y`. -/
structure Obstacle where
  kind : ObstacleKind
  position : Vec3
  boundingRadius : ℚ
  hasGeom : Bool
  width : ℚ
  depth : ℚ
  rotY : ℚ
deriving DecidableEq, Repr

/-- Whether the obstacle kind takes the box-collision path (`car.js`
827–828). -/
def ObstacleKind.isBox : ObstacleKind → Bool
  | building | skyscraper | boundary | stadium => true
  | other => false

/-- Axis-aligned box given by min/max corners (the car's bounding cube built
at `car.js` 874–885). -/
structure AABB where
  min : Vec3
  max : Vec3

/-- `Car.lineIntersectsBox` (`car.js` 939–976): slab test of the segment
`start → stop` against `box`, substituting `0.00001` for exactly-zero
direction components. -/
def lineIntersectsBox (start stop : Vec3) (box : AABB) : Bool :=
  let direction0 := Vec3.sub stop start
  let len := direction0.length
  let direction := direction0.normalize
  let dx := if direction.x ≠ 0 then direction.x else 0.00001
  let dy := if direction.y ≠ 0 then direction.y else 0.00001
  let tMin := (box.min.x - start.x) / dx
  let tMax := (box.max.x - start.x) / dx
  let tYMin := (box.min.y - start.y) / dy
  let tYMax := (box.max.y - start.y) / dy
  let tMinFinal := max (min tMin tMax) (min tYMin tYMax)
  let tMaxFinal := min (max tMin tMax) (max tYMin tYMax)
  if tMaxFinal < 0 ∨ tMinFinal > tMaxFinal ∨ tMinFinal > len then false
  else
    let dz := if direction.z ≠ 0 then direction.z else 0.00001
    let tZMin := (box.min.z - start.z) / dz
    let tZMax := (box.max.z - start.z) / dz
    let tMinZ := max tMinFinal (min tZMin tZMax)
    let tMaxZ := min tMaxFinal (max tZMin tZMax)
    if tMaxZ < 0 ∨ tMinZ > tMaxZ ∨ tMinZ > len then false
    else true

/-- `Car.checkBoxCollision` (`car.js` 857–937): edge-vs-bounding-cube tests
for the four yaw-rotated footprint edges of the obstacle against the car's
axis-aligned bounding cube, then the point-in-rotated-rectangle containment
test for the car centre.  The obstacle yaw enters through the `Trig` pack
(`Math.cos(obstacleRotation)` etc.). -/
def checkBoxCollision (t : Trig) (position : Vec3) (obstacle : Obstacle) : Bool :=
  if ¬obstacle.hasGeom then false
  else
    let halfWidth := obstacle.width / 2
    let halfDepth := obstacle.depth / 2
    let carBox : AABB :=
      { min := ⟨position.x - carBoundingRadius, position.y - carBoundingRadius,
                position.z - carBoundingRadius⟩,
        max := ⟨position.x + carBoundingRadius, position.y + carBoundingRadius,
                position.z + carBoundingRadius⟩ }
    let r := obstacle.rotY
    let c := t.cos r
    let s := t.sin r
    let rotCorner : Vec3 → Vec3 := fun v =>
      Vec3.add ⟨v.x * c - v.z * s, v.y, v.x * s + v.z * c⟩ obstacle.position
    let corner0 := rotCorner ⟨-halfWidth, 0, -halfDepth⟩
    let corner1 := rotCorner ⟨halfWidth, 0, -halfDepth⟩
    let corner2 := rotCorner ⟨halfWidth, 0, halfDepth⟩
    let corner3 := rotCorner ⟨-halfWidth, 0, halfDepth⟩
    if lineIntersectsBox corner0 corner1 carBox ∨
       lineIntersectsBox corner1 corner2 carBox ∨
       lineIntersectsBox corner2 corner3 carBox ∨
       lineIntersectsBox corner3 corner0 carBox then true
    else
      -- point-in-rotated-rectangle test (`car.js` 922–934), rotating the
      -- relative position back by `-obstacleRotation`
      let relativePos := Vec3.sub position obstacle.position
      let cm := t.cos (-r)
      let sm := t.sin (-r)
      let rotatedPos : Vec3 :=
        ⟨relativePos.x * cm + relativePos.z * sm, relativePos.y,
         -relativePos.x * sm + relativePos.z * cm⟩
      decide (|rotatedPos.x| < halfWidth ∧ |rotatedPos.z| < halfDepth)

/-- The result record of `Car.checkCollisions` (`car.js` 834–838 / 854):
`none` models `{ colliding: false }`, `some (o, n)` models
`{ colliding: true, obstacle: o, collisionNormal: n }`. -/
abbrev CollisionResult := Option (Obstacle × Vec3)

/-- `Car.checkCollisions` (`car.js` 822–855): scan the obstacle list in
order; box kinds use the box test, any other obstacle with a non-zero
(truthy) `boundingRadius` uses the sphere test
`distanceTo < carRadius + obstacleRadius` (embedded as the equivalent squared
comparison).  Both return the centre-to-car direction as the contact
normal; the first hit wins.  Obstacles without a `position` do not occur in
the embedding (every `Obstacle` has one). -/
def checkCollisions (t : Trig) (position : Vec3) :
    List Obstacle → CollisionResult
  | [] => none
  | obstacle :: rest =>
    if obstacle.kind.isBox then
      if checkBoxCollision t position obstacle then
        some (obstacle, (Vec3.sub position obstacle.position).normalize)
      else checkCollisions t position rest
    else if obstacle.boundingRadius ≠ 0 then
      if Vec3.distSq position obstacle.position <
         (carBoundingRadius + obstacle.boundingRadius) *
         (carBoundingRadius + obstacle.boundingRadius) then
        some (obstacle, (Vec3.sub position obstacle.position).normalize)
      else checkCollisions t position rest
    else checkCollisions t position rest

/-! ## Ramps (`Game.checkRampInteractions`, part_000 2818–2987) -/

/-- Ramp kind: the source's `ramp.type` string, reduced to the only
distinction the scan makes (`ramp.type === 'launchpad'`). -/
inductive RampKind where
  | directional | launchpad
deriving DecidableEq, Repr

/-- A ramp or launchpad (immutable, read-only to the core). -/
structure Ramp where
  kind : RampKind
  omnidirectional : Bool
  position : Vec3
  rotation : ℚ
  width : ℚ
  length : ℚ
  height : ℚ
  radius : ℚ
  jumpStrength : ℚ
deriving DecidableEq, Repr

/-! ## Car state (`Car` constructor, `car.js` 3–54) -/

/-- The car's simulation state.  `rotation` is the Euler triple
(x = pitch, y = yaw, z = roll); `rotationQuaternion`, the mesh, wheels and
drift marks are presentation-only and omitted (no claim mentions them). -/
structure CarState where
  position : Vec3
  rotation : Vec3
  direction : Vec3
  velocity : Vec3
  speed : ℚ
  isAirborne : Bool
  verticalVelocity : ℚ
  onRamp : Bool
  rampHeight : ℚ
  currentTurnAmount : ℚ
  colliding : Bool
  lastValidPosition : Vec3
  isDrifting : Bool
  currentRamp : Option Ramp
deriving DecidableEq, Repr

/-- The car state built by the `Car` constructor (`car.js` 11–50). -/
def carInit : CarState :=
  { position := ⟨0, 0.5, 0⟩, rotation := ⟨0, 0, 0⟩, direction := ⟨0, 0, 1⟩,
    velocity := ⟨0, 0, 0⟩, speed := 0, isAirborne := false,
    verticalVelocity := 0, onRamp := false, rampHeight := 0,
    currentTurnAmount := 0, colliding := false,
    lastValidPosition := ⟨0, 0.5, 0⟩, isDrifting := false,
    currentRamp := none }

/-- The longitudinal-control and in-air-attitude segment of `Car.update`
(`car.js` 497–546): grounded acceleration/braking/passive decay of `speed`,
or (airborne) tenth-strength air drag plus roll/pitch input with the pitch
clamped to `±0.5`. -/
def applySpeedInput (inp : Input) (dt : ℚ) (car : CarState) : CarState :=
  if ¬car.isAirborne then
    if inp.up then
      { car with speed := min (car.speed + carAcceleration * dt) carMaxSpeed }
    else if inp.down then
      { car with speed := max (car.speed - carBraking * dt) (-(carMaxSpeed / 2)) }
    else if car.speed > 0 then
      { car with speed := max (car.speed - carDeceleration * dt) 0 }
    else if car.speed < 0 then
      { car with speed := min (car.speed + carDeceleration * dt) 0 }
    else car
  else
    let car :=
      if car.speed > 0 then
        { car with speed := max (car.speed - carDeceleration * 0.1 * dt) 0 }
      else if car.speed < 0 then
        { car with speed := min (car.speed + carDeceleration * 0.1 * dt) 0 }
      else car
    let car :=
      if inp.left then
        { car with rotation := { car.rotation with z := car.rotation.z - 1.5 * dt } }
      else if inp.right then
        { car with rotation := { car.rotation with z := car.rotation.z + 1.5 * dt } }
      else car
    if inp.up then
      { car with rotation :=
          { car.rotation with x := min (car.rotation.x + 0.8 * dt) 0.5 } }
    else if inp.down then
      { car with rotation :=
          { car.rotation with x := max (car.rotation.x - 0.8 * dt) (-0.5) } }
    else car

/-- The steering segment of `Car.update` (`car.js` 549–593): inertial smoothing
of the turn input, yaw integration (`turnSpeed = Math.PI * 1.2`), direction
recomputation from the Euler rotation, and the drift flag. -/
def applySteering (t : Trig) (inp : Input) (dt : ℚ) (car : CarState) : CarState :=
  let normalizedSpeed := |car.speed| / carMaxSpeed
  let isTurning := inp.left ∨ inp.right
  let car :=
    if |car.speed| > 0.1 ∧ ¬car.isAirborne then
      let steeringIntensity := getSteeringIntensity car.speed
      let targetTurnAmount : ℚ := if inp.left then 1 else if inp.right then -1 else 0
      let cta := car.currentTurnAmount * (1 - turnInertia) +
                 targetTurnAmount * turnInertia
      let rot := { car.rotation with
                   y := car.rotation.y + (t.pi * 1.2) * dt * steeringIntensity * cta }
      { car with currentTurnAmount := cta, rotation := rot,
                 direction := applyEulerXYZ t rot ⟨0, 0, 1⟩ }
    else
      { car with currentTurnAmount := car.currentTurnAmount * (1 - turnInertia * 2) }
  { car with isDrifting :=
      isTurning ∧ normalizedSpeed > driftThreshold ∧ ¬car.isAirborne ∧ ¬car.onRamp }

/-- The collision-response segment of `Car.update` (`car.js` 636–692): bounce
the direction about the contact normal, damp the speed by `bounceFactor`, hop
when the impact was hard, then reposition to the last collision-free position
if it is far enough from the obstacle, otherwise push straight out of the
obstacle; finally land if the car was airborne and falling. -/
def resolveCollision (t : Trig) (obstacle : Obstacle) (normal? : Option Vec3)
    (car : CarState) : CarState :=
  let impactSpeed := car.speed
  let car : CarState :=
    match normal? with
    | some collisionNormal =>
      let d := car.velocity.dot collisionNormal
      let bounceDirection :=
        (Vec3.sub car.velocity (Vec3.smul (2 * d) collisionNormal)).normalize
      let car := { car with direction := bounceDirection,
                            speed := |impactSpeed| * bounceFactor }
      let car : CarState :=
        if |impactSpeed| > 10 then
          { car with isAirborne := true,
                     verticalVelocity := 3 + min 5 (|impactSpeed| * 0.1) }
        else car
      { car with rotation :=
          { car.rotation with y := t.atan2 car.direction.x car.direction.z } }
    | none => { car with speed := 0 }
  let rSum := carBoundingRadius + obstacle.boundingRadius
  let car : CarState :=
    if Vec3.distSq car.lastValidPosition obstacle.position > rSum * rSum then
      { car with position := car.lastValidPosition }
    else
      let pushVector := (Vec3.sub car.position obstacle.position).normalize
      let pushDistance := rSum + 0.1
      { car with position :=
          Vec3.add obstacle.position (Vec3.smul pushDistance pushVector) }
  if car.isAirborne = true ∧ car.verticalVelocity < 0 then
    { car with isAirborne := false, verticalVelocity := 0,
               rotation := { car.rotation with x := 0, z := 0 } }
  else car

/-- The vertical-state segment of `Car.update` (`car.js` 696–741): airborne
gravity integration and landing, grounded height lock with pitch/roll
relaxation, or on-ramp pitch smoothing toward the ramp slope. -/
def applyVertical (t : Trig) (dt : ℚ) (car : CarState) : CarState :=
  if car.isAirborne then
    let vv := car.verticalVelocity - carGravity * dt
    let y := car.position.y + vv * dt
    let car := { car with verticalVelocity := vv,
                          position := { car.position with y := y } }
    if car.position.y ≤ 0.5 then
      { car with position := { car.position with y := 0.5 },
                 isAirborne := false, verticalVelocity := 0,
                 speed := car.speed * 0.7,
                 rotation := { car.rotation with x := car.rotation.x * 0.5,
                                                  z := car.rotation.z * 0.5 } }
    else car
  else if ¬car.onRamp then
    let rx := if |car.rotation.x| > 0.01 then car.rotation.x * 0.9 else 0
    let rz := if |car.rotation.z| > 0.01 then car.rotation.z * 0.9 else 0
    { car with position := { car.position with y := 0.5 },
               rotation := { car.rotation with x := rx, z := rz } }
  else
    let targetPitch := -(t.atan2 car.rampHeight 8) * 0.5
    let pitchLerpFactor : ℚ := 0.1
    { car with rotation := { car.rotation with
        x := car.rotation.x * (1 - pitchLerpFactor) + targetPitch * pitchLerpFactor } }

/-- `Car.update` (`car.js` 491–754): remember the last collision-free
position, apply longitudinal control, steering, integration with (possibly
swept) collision checking and response, and the vertical state machine.
Wheel-spin animation and drift-mark emission are presentation-only and
omitted. -/
def carUpdate (t : Trig) (inp : Input) (dt : ℚ) (obstacles : List Obstacle)
    (car : CarState) : CarState :=
  let car : CarState :=
    if ¬car.colliding then { car with lastValidPosition := car.position } else car
  let car := applySpeedInput inp dt car
  let car := applySteering t inp dt car
  let car : CarState :=
    { car with velocity := Vec3.smul car.speed car.direction }
  let newPosition := Vec3.add car.position (Vec3.smul dt car.velocity)
  let collisionResult : CollisionResult :=
    if car.isAirborne = true ∧ car.speed > 15 then
      -- swept multi-sample check (`car.js` 607–624)
      let moveDir := (Vec3.sub newPosition car.position).normalize
      let moveDistance := ratSqrt (Vec3.distSq car.position newPosition)
      let numSteps : ℤ := max 3 ⌈moveDistance / 2⌉
      let stepDistance := moveDistance / (numSteps : ℚ)
      (List.range numSteps.toNat).findSome? fun k =>
        checkCollisions t
          (Vec3.add car.position (Vec3.smul (stepDistance * ((k : ℚ) + 1)) moveDir))
          obstacles
    else
      checkCollisions t newPosition obstacles
  let car : CarState :=
    match collisionResult with
    | none => { car with colliding := false, position := newPosition }
    | some (obstacle, normal) =>
      resolveCollision t obstacle (some normal) { car with colliding := true }
  applyVertical t dt car

/-! ## Boundary enforcement (the block of `Game.update`, part_000 2672–2735) -/

/-- `this.citySize = 3` (part_000 6). -/
def citySize : ℚ := 3

/-- `this.blockSize = 50` (part_000 7). -/
def blockSize : ℚ := 50

/-- `this.roadWidth = 10` (part_000 8). -/
def roadWidth : ℚ := 10

/-- The boundary-enforcement block of `Game.update` (part_000 2672–2735).
`carPosition` is the *clone* returned by `Car.getPosition()` (`car.js`
995–997); the source clamps that clone (part_000 2683–2691) and never writes
it back to `this.car.position`, so only the speed / direction / rotation /
airborne fields of the stored car state can change here — the embedding
reproduces that faithfully. -/
def enforceBoundary (t : Trig) (cs bs rw : ℚ) (car : CarState) : CarState :=
  let carPosition := car.position
  let cityTotal := cs * bs + (cs + 1) * rw
  let halfSize := cityTotal / 2
  let buffer : ℚ := 10
  if |carPosition.x| > halfSize - buffer ∨ |carPosition.z| > halfSize - buffer then
    let wasX := |carPosition.x| > halfSize - buffer
    let wasZ := |carPosition.z| > halfSize - buffer
    -- part_000 2683–2691: the clamped coordinates live only in the clone
    let _clampedX := if wasX then qsign carPosition.x * (halfSize - buffer)
                     else carPosition.x
    let _clampedZ := if wasZ then qsign carPosition.z * (halfSize - buffer)
                     else carPosition.z
    let boundaryNormal :=
      Vec3.normalize ⟨if wasX then -qsign carPosition.x else 0, 0,
                      if wasZ then -qsign carPosition.z else 0⟩
    let dotProduct := car.velocity.dot boundaryNormal
    if dotProduct < 0 then
      let bounceVelocity :=
        (Vec3.sub car.velocity (Vec3.smul (2 * dotProduct) boundaryNormal)).normalize
      let car : CarState :=
        { car with direction := bounceVelocity, speed := car.speed * 0.4 }
      let car : CarState :=
        { car with rotation :=
            { car.rotation with y := t.atan2 car.direction.x car.direction.z } }
      if |car.speed| > 15 ∧ car.isAirborne = false then
        { car with isAirborne := true, verticalVelocity := 4 }
      else car
    else
      { car with speed := car.speed * 0.5 }
  else car

/-- The speed-boost application block of `Game.update` (part_000 2620–2670):
smooth the current multiplier toward its target, then — when meaningfully
above 1 — either nudge the airborne speed toward the airborne cap or multiply
the grounded speed.  The boost-trail and bloom effects are
presentation-only. -/
def applyBoost (dt : ℚ) (b : BoostState) (car : CarState) :
    BoostState × CarState :=
  let targetMultiplier : ℚ :=
    if b.active ∧ b.available > 0 then b.speedMultiplier else 1.0
  let m := b.currentMultiplier +
           (targetMultiplier - b.currentMultiplier) * b.transitionSpeed * dt
  let b := { b with currentMultiplier := m }
  if m > 1.01 then
    if car.isAirborne then
      let maxAirborneSpeed : ℚ := 25
      if car.speed < maxAirborneSpeed then
        let boostStrength := (m - 1.0) / (b.speedMultiplier - 1.0)
        let airborneAcceleration := 10 * boostStrength * dt
        (b, { car with speed := min (car.speed + airborneAcceleration) maxAirborneSpeed })
      else (b, car)
    else
      (b, { car with speed := car.speed * m })
  else (b, car)

/-! ## Ramp interactions (`Game.checkRampInteractions`, part_000 2818–2987) -/

/-- Whether the scan treats `r` as an omnidirectional launchpad
(part_000 2831: `ramp.type === 'launchpad' && ramp.omnidirectional`). -/
def isLaunchpadRamp (r : Ramp) : Bool :=
  r.kind = RampKind.launchpad ∧ r.omnidirectional

/-- The launchpad containment test (part_000 2833–2838): squared XZ distance
from the pad centre within the squared radius.  `carPos` is the position
snapshot taken before the scan. -/
def launchpadContains (r : Ramp) (carPos : Vec3) : Bool :=
  let dx := carPos.x - r.position.x
  let dz := carPos.z - r.position.z
  dx * dx + dz * dz ≤ r.radius * r.radius

/-- The directional-ramp local forward axis (part_000 2899). -/
def rampForwardAxis (t : Trig) (r : Ramp) : Vec3 :=
  applyAxisAngleY t r.rotation ⟨0, 0, 1⟩

/-- The directional-ramp local right axis (part_000 2900). -/
def rampRightAxis (t : Trig) (r : Ramp) : Vec3 :=
  applyAxisAngleY t r.rotation ⟨1, 0, 0⟩

/-- The directional-ramp footprint test (part_000 2903–2912): the car
position, projected on the ramp's local axes, lies strictly inside the
rectangle. -/
def dirRampContains (t : Trig) (r : Ramp) (carPos : Vec3) : Bool :=
  let relativePos := Vec3.sub carPos r.position
  let forwardProjection := relativePos.dot (rampForwardAxis t r)
  let rightProjection := relativePos.dot (rampRightAxis t r)
  |rightProjection| < r.width / 2 ∧
  forwardProjection > -(r.length / 2) ∧ forwardProjection < r.length / 2

/-- The normalized position along a directional ramp (part_000 2920). -/
def dirRampNormalizedPos (t : Trig) (r : Ramp) (carPos : Vec3) : ℚ :=
  let relativePos := Vec3.sub carPos r.position
  let forwardProjection := relativePos.dot (rampForwardAxis t r)
  (forwardProjection + r.length / 2) / r.length

/-- The ramp height under the car on a directional ramp (part_000 2921). -/
def dirRampHeightAt (t : Trig) (r : Ramp) (carPos : Vec3) : ℚ :=
  dirRampNormalizedPos t r carPos * r.height

/-- Accumulator of the ramp scan: the live car state plus the loop locals
`onAnyRamp`, `currentRampHeight`, `currentRamp` (part_000 2825–2827). -/
structure RampScan where
  car : CarState
  onAnyRamp : Bool
  currentRampHeight : ℚ
  currentRamp : Option Ramp
deriving DecidableEq, Repr

/-- Effect of one matching launchpad on the scan state
(part_000 2838–2894). -/
def processLaunchpad (r : Ramp) (carPos : Vec3) (carSpeed : ℚ)
    (acc : RampScan) : RampScan :=
  let car := acc.car
  let car : CarState :=
    if ¬car.isAirborne then
      let car : CarState :=
        { car with position := { car.position with y := 0.5 + r.height } }
      let car : CarState :=
        if carSpeed > 10 then { car with speed := car.speed * 1.02 } else car
      let dx := carPos.x - r.position.x
      let dz := carPos.z - r.position.z
      let distanceFromCenter := ratSqrt (dx * dx + dz * dz)
      let normalizedDistance := distanceFromCenter / r.radius
      if carSpeed > 5 ∧ ¬car.isAirborne then
        let centerBonus := 1 - normalizedDistance
        let speedFactor := min 1 (carSpeed / 25)
        let baseJumpStrength := min r.jumpStrength 22
        let launchStrength := baseJumpStrength * speedFactor * (0.7 + centerBonus * 0.3)
        let car : CarState :=
          { car with isAirborne := true, verticalVelocity := launchStrength,
                     rotation := { car.rotation with x := -0.2 - speedFactor * 0.3 } }
        if carSpeed > 30 then { car with speed := 30 }
        else { car with speed := car.speed * 1.05 }
      else car
    else car
  { acc with car := car, onAnyRamp := true, currentRamp := some r }

/-- Effect of one matching directional ramp on the scan state
(part_000 2913–2974).  `carPos`, `carDir`, `carSpeed` are the snapshots taken
before the scan. -/
def processDirRamp (t : Trig) (r : Ramp) (carPos carDir : Vec3) (carSpeed : ℚ)
    (acc : RampScan) : RampScan :=
  let normalizedPos := dirRampNormalizedPos t r carPos
  let h := dirRampHeightAt t r carPos
  let car := acc.car
  let car : CarState :=
    if ¬car.isAirborne then
      let car : CarState :=
        { car with position := { car.position with y := 0.5 + h } }
      if normalizedPos < 0.4 ∧ carSpeed > 15 then
        { car with speed := car.speed * 1.01 }
      else car
    else car
  let car : CarState :=
    if normalizedPos > 0.8 ∧ carSpeed > 10 then
      let alignmentWithRamp := carDir.dot (rampForwardAxis t r)
      if alignmentWithRamp > 0.7 then
        let jumpFactor := min 1 (carSpeed / 30)
        let baseJumpStrength := min r.jumpStrength 20
        let jumpVelocity := baseJumpStrength * jumpFactor
        if ¬car.isAirborne then
          let car : CarState :=
            { car with isAirborne := true, verticalVelocity := jumpVelocity,
                       rotation := { car.rotation with x := -0.3 } }
          if carSpeed > 30 then { car with speed := 30 }
          else { car with speed := car.speed * 1.1 }
        else car
      else car
    else car
  { acc with car := car, onAnyRamp := true, currentRampHeight := h,
             currentRamp := some r }

/-- The ramp scan loop (part_000 2829–2976): launchpads `break` after the
first match; directional ramps keep scanning, so later directional matches
override earlier ones. -/
def rampLoop (t : Trig) (carPos carDir : Vec3) (carSpeed : ℚ) :
    List Ramp → RampScan → RampScan
  | [], acc => acc
  | r :: rest, acc =>
    if isLaunchpadRamp r then
      if launchpadContains r carPos then processLaunchpad r carPos carSpeed acc
      else rampLoop t carPos carDir carSpeed rest acc
    else
      if dirRampContains t r carPos then
        rampLoop t carPos carDir carSpeed rest
          (processDirRamp t r carPos carDir carSpeed acc)
      else rampLoop t carPos carDir carSpeed rest acc

/-- `Game.checkRampInteractions` (part_000 2818–2987): snapshot the car's
position, direction and absolute speed, scan the ramp list, then reset the
ride height when grounded off-ramp and store the scan results on the car. -/
def checkRampInteractions (t : Trig) (ramps : List Ramp) (car : CarState) :
    CarState :=
  let carPos := car.position
  let carDir := car.direction
  let carSpeed := |car.speed|
  let scan := rampLoop t carPos carDir carSpeed ramps
    { car := car, onAnyRamp := false, currentRampHeight := 0, currentRamp := none }
  let car := scan.car
  let car : CarState :=
    if ¬scan.onAnyRamp ∧ ¬car.isAirborne then
      { car with position := { car.position with y := 0.5 } }
    else car
  { car with onRamp := scan.onAnyRamp, rampHeight := scan.currentRampHeight,
             currentRamp := scan.currentRamp }

/-! ## Dynamic props (`Game.updatePhysicsObjects`, part_000 3059–3271;
`Game.resetPhysicsObject`, part_000 3308–3341) -/

/-- Prop kind tag (the source's `obj.type` string; `otherProp` stands for any
other string and takes the `default` arm of the threshold switch). -/
inductive PropType where
  | trashCan | bench | streetlight | barrel | crate | otherProp
deriving DecidableEq, Repr

/-- A knockable dynamic prop (created at world build; the mesh and light
handles are presentation-only, with the streetlight's light intensity kept as
the observable `lightIntensity`). -/
structure PropObj where
  ptype : PropType
  position : Vec3
  rotation : Vec3
  velocity : Vec3
  angularVelocity : Vec3
  originalPosition : Vec3
  originalRotation : Vec3
  mass : ℚ
  radius : ℚ
  height : ℚ
  isKnockedOver : Bool
  resetTimer : ℚ
  hasPole : Bool
  poleRadius : ℚ
  hasLight : Bool
  lightIntensity : ℚ
deriving DecidableEq, Repr

/-- The per-type knockover threshold (part_000 3102–3121). -/
def knockoverThreshold : PropType → ℚ
  | PropType.trashCan => 3
  | PropType.bench => 7
  | PropType.streetlight => 6
  | PropType.barrel => 4
  | PropType.crate => 5
  | PropType.otherProp => 5

/-- Random draws consumed by the prop simulation: the knockover angular
velocity (part_000 3145–3149, three draws from `(Math.random()-0.5)*5`) and
the fresh sidewalk position a trash-can reset samples
(`Game.getRandomSidewalkPosition`, part_000 3343 ff.). -/
structure PropRand where
  angularVelocity : Vec3
  sidewalkPosition : Vec3
deriving DecidableEq, Repr

/-- `Game.resetPhysicsObject` (part_000 3308–3341): a trash can is moved to a
*fresh random sidewalk position* (which also overwrites its
`originalPosition`); every other prop returns to its original pose.  Both
zero the velocities and clear the knocked-over flag; a streetlight's light
returns to full intensity. -/
def resetPhysicsObject (rand : PropRand) (obj : PropObj) : PropObj :=
  if obj.ptype = PropType.trashCan then
    { obj with originalPosition := rand.sidewalkPosition,
               position := rand.sidewalkPosition,
               rotation := obj.originalRotation,
               velocity := Vec3.zero, angularVelocity := Vec3.zero,
               isKnockedOver := false }
  else
    let obj := { obj with position := obj.originalPosition,
                          rotation := obj.originalRotation,
                          velocity := Vec3.zero, angularVelocity := Vec3.zero,
                          isKnockedOver := false }
    if obj.ptype = PropType.streetlight ∧ obj.hasLight then
      { obj with lightIntensity := 1.0 }
    else obj

/-- The not-yet-knocked-over arm of the per-object loop body of
`Game.updatePhysicsObjects` (part_000 3069–3175): sphere (plus streetlight
pole cylinder) overlap test against the car, knockover on sufficient impact
force, impulse assignment, per-type bonuses, and the car slowdown.
`carPosition`, `carSpeed`, `carDirection` are the snapshots taken before the
loop (part_000 3062–3064); `carSpeedLive` is the car's live signed speed, and
`score` flows through `addScore`.  Distance comparisons against nonnegative
radii sums are embedded squared. -/
def propKnockStep (rand : PropRand) (carPosition : Vec3) (carSpeed : ℚ)
    (carDirection : Vec3) (carSpeedLive score : ℚ) (obj : PropObj) :
    ℚ × ℚ × PropObj :=
  let distSqToCar := Vec3.distSq carPosition obj.position
  let collisionThreshold := carBoundingRadius + obj.radius
  let collision : Bool :=
    if distSqToCar < collisionThreshold * collisionThreshold then true
    else if obj.ptype = PropType.streetlight ∧ obj.hasPole then
      let dx := carPosition.x - obj.position.x
      let dz := carPosition.z - obj.position.z
      let maxPossibleDistance := carBoundingRadius + obj.poleRadius
      decide (dx * dx + dz * dz < maxPossibleDistance * maxPossibleDistance)
    else false
  if collision then
    let impactForce := carSpeed * 0.5
    if impactForce > knockoverThreshold obj.ptype then
      let obj := { obj with isKnockedOver := true }
      let score := addScore score 50
      let impulseDirection0 := (Vec3.sub obj.position carPosition).normalize
      let impulseDirection := Vec3.normalize ⟨impulseDirection0.x, 0.5, impulseDirection0.z⟩
      let obj := { obj with
        velocity := Vec3.add (Vec3.smul (carSpeed * 0.3) carDirection)
                             (Vec3.smul impactForce impulseDirection),
        angularVelocity := rand.angularVelocity }
      let (score, obj) :=
        if obj.ptype = PropType.barrel then
          (addScore score 75,
           { obj with velocity := { obj.velocity with y := obj.velocity.y + 2 } })
        else if obj.ptype = PropType.crate then
          (addScore score 60,
           { obj with velocity := ⟨obj.velocity.x * 1.5, obj.velocity.y * 0.7,
                                   obj.velocity.z * 1.5⟩ })
        else (score, obj)
      let carSlowdown := min 0.8 (obj.mass / 100)
      (carSpeedLive * (1 - carSlowdown), score, obj)
    else (carSpeedLive, score, obj)
  else (carSpeedLive, score, obj)

/-- The knocked-over arm of the per-object loop body of
`Game.updatePhysicsObjects` (part_000 3176–3269): gravity, integration,
rotation integration (through the abstract `rotStep`, which stands for the
quaternion composition of part_000 3186–3195), ground bounce with damping,
air resistance, streetlight light dimming, barrel rolling, and the
auto-reset decision.  Awards no score. -/
def propPhysicsStep (t : Trig) (rand : PropRand)
    (rotStep : Vec3 → Vec3 → ℚ → Vec3) (carPosition : Vec3) (dt : ℚ)
    (obj : PropObj) : PropObj :=
  let obj := { obj with velocity := { obj.velocity with y := obj.velocity.y - 20 * dt } }
  let obj := { obj with position := Vec3.add obj.position (Vec3.smul dt obj.velocity) }
  let obj := { obj with rotation := rotStep obj.rotation obj.angularVelocity dt }
  let obj : PropObj :=
    if obj.position.y - obj.height / 2 < 0 then
      let obj := { obj with position := { obj.position with y := obj.height / 2 } }
      let obj : PropObj :=
        if |obj.velocity.y| > 0.5 then
          { obj with velocity := ⟨obj.velocity.x * 0.9, -obj.velocity.y * 0.3,
                                  obj.velocity.z * 0.9⟩ }
        else { obj with velocity := { obj.velocity with y := 0 } }
      { obj with angularVelocity := Vec3.smul 0.9 obj.angularVelocity }
    else obj
  let obj : PropObj :=
    { obj with velocity := Vec3.smul 0.98 obj.velocity,
               angularVelocity := Vec3.smul 0.98 obj.angularVelocity }
  let obj : PropObj :=
    if obj.ptype = PropType.streetlight ∧ obj.hasLight then
      let upVector := applyEulerXYZ t obj.rotation ⟨0, 1, 0⟩
      let angleFactor := upVector.dot ⟨0, 1, 0⟩
      let normalizedAngle := (angleFactor + 1) / 2
      { obj with lightIntensity := max 0 normalizedAngle * 1.0 }
    else if obj.ptype = PropType.barrel then
      if obj.position.y = obj.height / 2 ∧ |obj.velocity.y| ≤ 0.5 then
        let horizontalSpeed :=
          ratSqrt (obj.velocity.x * obj.velocity.x + obj.velocity.z * obj.velocity.z)
        if horizontalSpeed > 0.1 then
          let movementDir := Vec3.normalize ⟨obj.velocity.x, 0, obj.velocity.z⟩
          let rollAxis : Vec3 := ⟨-movementDir.z, 0, movementDir.x⟩
          { obj with angularVelocity := Vec3.smul (horizontalSpeed * 2) rollAxis }
        else obj
      else obj
    else obj
  let isAtRest := obj.velocity.magSq < 0.01 ∧ obj.angularVelocity.magSq < 0.01
  let isOutOfBounds := |obj.position.x| > 500 ∨ |obj.position.z| > 500
  if isAtRest ∨ isOutOfBounds ∨ obj.resetTimer > 60 then
    if Vec3.distSq carPosition obj.position > 50 * 50 ∨ isOutOfBounds then
      resetPhysicsObject rand obj
    else obj
  else
    { obj with resetTimer := obj.resetTimer + dt }

/-- The per-object loop body of `Game.updatePhysicsObjects`
(part_000 3067–3270): branch on the knocked-over flag. -/
def updatePhysicsObject (t : Trig) (rand : PropRand)
    (rotStep : Vec3 → Vec3 → ℚ → Vec3) (carPosition : Vec3) (carSpeed : ℚ)
    (carDirection : Vec3) (dt : ℚ) (carSpeedLive score : ℚ) (obj : PropObj) :
    ℚ × ℚ × PropObj :=
  if ¬obj.isKnockedOver then
    propKnockStep rand carPosition carSpeed carDirection carSpeedLive score obj
  else
    (carSpeedLive, score, propPhysicsStep t rand rotStep carPosition dt obj)

/-! ## Pedestrians (`Game.updateHumans`, part_000 3382–3532;
`Game.killHuman`, part_000 3652–3746) -/

/-- Pedestrian state (the source's `human.state` string
`'walking' | 'fleeing' | 'dead'`). -/
inductive HState where
  | walking | fleeing | dead
deriving DecidableEq, Repr

/-- A pedestrian (created at world build, part_000 1329–1355).  Limb meshes
and the animation sub-state drive only the presentation and are omitted. -/
structure Human where
  position : Vec3
  velocity : Vec3
  rotation : ℚ
  walkSpeed : ℚ
  walkHorizontal : Bool
  state : HState
  runningFrom : Option Vec3
  fleeSpeed : ℚ
  detectionRadius : ℚ
  pointValue : ℚ
  isDead : Bool
  boundingRadius : ℚ
deriving DecidableEq, Repr

/-- Random draws consumed by one pedestrian tick: the initial axis sign
(part_000 3579/3582), the 1 %-per-tick redirect draw (part_000 3620), and the
random redirect direction `(sin θ, 0, cos θ)` (part_000 3627–3628). -/
structure HumanRand where
  axisSign : Bool
  changeDir : Bool
  randDir : Vec3
deriving DecidableEq, Repr

/-- Truncated (toward-zero) division remainder, modelling the JavaScript `%`
operator on numbers. -/
def jsMod (a b : ℚ) : ℚ :=
  let q := a / b
  a - b * ((if q ≥ 0 then ⌊q⌋ else ⌈q⌉ : ℤ) : ℚ)

/-- `Game.killHuman` (part_000 3652–3746), restricted to simulation state:
guard on `isDead`, mark dead, and report the score award.  The ragdoll
reorientation, blood splatter and limb detachment mutate only meshes and the
transient-particle pool.  Returns the updated pedestrian and the points
awarded (`addScore(human.pointValue)`, part_000 3660). -/
def killHuman (h : Human) : Human × ℚ :=
  if h.isDead then (h, 0)
  else ({ h with isDead := true, state := HState.dead }, h.pointValue)

/-- `Game.updateWalkingHuman` (part_000 3570–3650): assign a fresh cardinal
direction when the velocity has (nearly) vanished, then either redirect (on
boundary proximity, boundary-obstacle collision, or the 1 % random draw) or
commit the integrated position; Y is pinned to the ground. -/
def updateWalkingHuman (t : Trig) (rand : HumanRand) (obstacles : List Obstacle)
    (cs bs rw dt : ℚ) (h : Human) : Human :=
  let h : Human :=
    if h.velocity.magSq < 0.01 then
      let v0 : Vec3 :=
        if h.walkHorizontal then ⟨if rand.axisSign then 1 else -1, 0, 0⟩
        else ⟨0, 0, if rand.axisSign then 1 else -1⟩
      let v := Vec3.smul h.walkSpeed v0.normalize
      { h with velocity := v, rotation := t.atan2 v.x v.z }
    else h
  let newPosition := Vec3.add h.position (Vec3.smul dt h.velocity)
  let collisionDetected := obstacles.any fun o =>
    o.kind = ObstacleKind.boundary ∧
    decide (Vec3.distSq newPosition o.position <
      (h.boundingRadius + o.boundingRadius) * (h.boundingRadius + o.boundingRadius))
  let halfBounds := (cs * bs + (cs + 1) * rw) / 2
  let boundaryBuffer : ℚ := 5
  let atBoundary := |newPosition.x| > halfBounds - boundaryBuffer ∨
                    |newPosition.z| > halfBounds - boundaryBuffer
  let h : Human :=
    if collisionDetected ∨ atBoundary ∨ rand.changeDir then
      let v : Vec3 :=
        if atBoundary then
          Vec3.smul h.walkSpeed (Vec3.sub Vec3.zero h.position).normalize
        else Vec3.smul h.walkSpeed rand.randDir
      { h with velocity := v, rotation := t.atan2 v.x v.z }
    else { h with position := newPosition }
  { h with position := { h.position with y := 0 } }

/-- The fleeing arm of the per-pedestrian loop body (part_000 3444–3529):
point the velocity away from the car at `fleeSpeed`, deflect tangentially
along a violated world boundary or freeze on a boundary-obstacle hit,
otherwise commit the integrated position; then smooth the facing angle. -/
def fleeStep (t : Trig) (carPosition : Vec3) (obstacles : List Obstacle)
    (cs bs rw dt : ℚ) (h : Human) : Human :=
  let fleeDirection := (Vec3.sub h.position carPosition).normalize
  let h : Human := { h with velocity := Vec3.smul h.fleeSpeed fleeDirection }
  let newPosition := Vec3.add h.position (Vec3.smul dt h.velocity)
  let collisionDetected := obstacles.any fun o =>
    o.kind = ObstacleKind.boundary ∧
    decide (Vec3.distSq newPosition o.position <
      (h.boundingRadius + o.boundingRadius) * (h.boundingRadius + o.boundingRadius))
  let halfBounds := (cs * bs + (cs + 1) * rw) / 2
  let boundaryBuffer : ℚ := 5
  let atBoundary := |newPosition.x| > halfBounds - boundaryBuffer ∨
                    |newPosition.z| > halfBounds - boundaryBuffer
  let h : Human :=
    if collisionDetected ∨ atBoundary then
      if atBoundary then
        let tangentDir : Vec3 :=
          if |newPosition.x| > halfBounds - boundaryBuffer then
            ⟨0, 0, qsign (carPosition.z - h.position.z) * (-1)⟩
          else
            ⟨qsign (carPosition.x - h.position.x) * (-1), 0, 0⟩
        let h : Human := { h with velocity := Vec3.smul h.fleeSpeed tangentDir }
        { h with position := Vec3.add h.position (Vec3.smul dt h.velocity) }
      else h
    else { h with position := newPosition }
  let h : Human := { h with position := { h.position with y := 0 } }
  let targetAngle := t.atan2 fleeDirection.x fleeDirection.z
  let angleDiff := targetAngle - h.rotation
  let normalizedDiff := jsMod (angleDiff + t.pi) (t.pi * 2) - t.pi
  { h with rotation := h.rotation + normalizedDiff * 5 * dt }

/-- The per-pedestrian loop body of `Game.updateHumans` (part_000 3394–3531):
dead pedestrians are skipped entirely; otherwise Y is pinned, a close fast
car kills, distant pedestrians only animate, and walking/fleeing states run
their transitions.  `carPosition`, `carRadius`, `carSpeed` are the snapshots
of part_000 3385–3387.  Returns the updated pedestrian and the score awarded
this tick. -/
def updateHuman (t : Trig) (rand : HumanRand) (carPosition : Vec3)
    (carRadius carSpeed : ℚ) (obstacles : List Obstacle) (cs bs rw dt : ℚ)
    (h : Human) : Human × ℚ :=
  if h.isDead then (h, 0)
  else
    let h : Human := { h with position := { h.position with y := 0 } }
    let distSqToCar := Vec3.distSq h.position carPosition
    if distSqToCar < (carRadius + h.boundingRadius) * (carRadius + h.boundingRadius)
       ∧ carSpeed > 5 then
      killHuman h
    else if distSqToCar > 500 * 500 then
      (h, 0)
    else if h.state = HState.walking then
      if distSqToCar < h.detectionRadius * h.detectionRadius then
        ({ h with state := HState.fleeing, runningFrom := some carPosition }, 0)
      else
        (updateWalkingHuman t rand obstacles cs bs rw dt h, 0)
    else if h.state = HState.fleeing then
      if distSqToCar < (h.detectionRadius * 1.5) * (h.detectionRadius * 1.5) then
        (fleeStep t carPosition obstacles cs bs rw dt h, 0)
      else
        ({ h with state := HState.walking, velocity := Vec3.zero }, 0)
    else (h, 0)

/-! ## The orchestration tick (`Game.update`, part_000 2608–2764) -/

/-- The simulation-relevant game state threaded through one tick.  Camera,
speedometer, particles, rendering and the HUD are presentation-only and
omitted.  `boost.active` is toggled by the space-bar listeners *between*
ticks (part_000 2456–2478), so it is part of the state, not of the per-tick
input snapshot. -/
structure GameState where
  car : CarState
  boost : BoostState
  score : ℚ
  obstacles : List Obstacle
  ramps : List Ramp
  props : List PropObj
  humans : List Human

/-- `Game.update` (part_000 2608–2764), as a function of the elapsed `dt`:
boost meter update, car update, boost application, boundary enforcement, ramp
interactions, dynamic-prop interactions and pedestrian updates, in source
order.  `prand`/`hrand` supply the random draws for the `i`-th prop/human
and `rotStep` abstracts the prop quaternion integration
(part_000 3186–3195). -/
def gameUpdate (t : Trig) (prand : Nat → PropRand) (hrand : Nat → HumanRand)
    (rotStep : Vec3 → Vec3 → ℚ → Vec3) (inp : Input) (dt : ℚ)
    (g : GameState) : GameState :=
  let boost := updateBoost dt g.boost
  let car := carUpdate t inp dt g.obstacles g.car
  let (boost, car) := applyBoost dt boost car
  let car := enforceBoundary t citySize blockSize roadWidth car
  let car := checkRampInteractions t g.ramps car
  let carPosition := car.position
  let carSpeed := |car.speed|
  let carDirection := car.direction
  let propsAcc :=
    (g.props.enum).foldl
      (fun (acc : ℚ × ℚ × List PropObj) (p : Nat × PropObj) =>
        let res := updatePhysicsObject t (prand p.1) rotStep carPosition
          carSpeed carDirection dt acc.1 acc.2.1 p.2
        (res.1, res.2.1, res.2.2 :: acc.2.2))
      (car.speed, g.score, [])
  let car : CarState := { car with speed := propsAcc.1 }
  let props := propsAcc.2.2.reverse
  let carPos2 := car.position
  let carSpeed2 := |car.speed|
  let humansAcc :=
    (g.humans.enum).foldl
      (fun (acc : ℚ × List Human) (p : Nat × Human) =>
        let res := updateHuman t (hrand p.1) carPos2 carBoundingRadius
          carSpeed2 g.obstacles citySize blockSize roadWidth dt p.2
        (addScore acc.1 res.2, res.1 :: acc.2))
      (propsAcc.2.1, [])
  { g with car := car, boost := boost, score := humansAcc.1,
           props := props, humans := humansAcc.2.reverse }

/-! ## Claims -/

/-- **C4** (amended): the steering-intensity function of normalized speed
`s = |speed|/maxSpeed` returns exactly 1.2 at `s = 0`, equals 1.2 for
`s < 0.2`, 1.0 for `0.2 ≤ s < 0.6`, and `0.8 − (s−0.6)·0.3` for `s ≥ 0.6`,
and it is monotonically non-increasing on `[0.2, 1.0]`.  (The claim's
continuity assertion fails — see the counterexample — because the function
jumps from 1.0 to 0.8 at `s = 0.6`.) -/
theorem C4_steering_piecewise_monotone :
    steeringIntensityFn 0 = 1.2 ∧
    (∀ s : ℚ, s < 0.2 → steeringIntensityFn s = 1.2) ∧
    (∀ s : ℚ, 0.2 ≤ s → s < 0.6 → steeringIntensityFn s = 1.0) ∧
    (∀ s : ℚ, 0.6 ≤ s → steeringIntensityFn s = 0.8 - (s - 0.6) * 0.3) ∧
    (∀ a b : ℚ, 0.2 ≤ a → a ≤ b → b ≤ 1 →
      steeringIntensityFn b ≤ steeringIntensityFn a) := by
  refine ⟨by norm_num [steeringIntensityFn], ?_, ?_, ?_, ?_⟩
  · intro s hs
    simp only [steeringIntensityFn, if_pos hs]
  · intro s hs1 hs2
    rw [steeringIntensityFn, if_neg (by linarith), if_pos hs2]
  · intro s hs
    rw [steeringIntensityFn, if_neg (by linarith), if_neg (by linarith)]
  · intro a b ha hab hb1
    unfold steeringIntensityFn
    split_ifs <;> linarith

/-- **C4 counterexample**: the steering-intensity function is *not*
continuous on `[0.2, 1.0]`: at `s = 0.6` it jumps from 1.0 (left) to 0.8
(value), so no δ works for ε = 1/10 at the point 0.6. -/
theorem C4_counterexample_not_continuous :
    ¬ QContinuousOn steeringIntensityFn {s : ℚ | 0.2 ≤ s ∧ s ≤ 1} := by
  intro hcont
  obtain ⟨δ, hδ, hall⟩ := hcont 0.6 (by norm_num) (1 / 10) (by norm_num)
  set s : ℚ := 0.6 - min δ 0.4 / 2 with hs
  have hmin0 : 0 < min δ 0.4 := lt_min hδ (by norm_num)
  have hminδ : min δ 0.4 ≤ δ := min_le_left _ _
  have hmin4 : min δ 0.4 ≤ 0.4 := min_le_right _ _
  have hsS : s ∈ {s : ℚ | 0.2 ≤ s ∧ s ≤ 1} := by
    constructor <;> [skip; skip] <;> rw [hs] <;> linarith
  have hclose : |s - 0.6| < δ := by
    rw [hs]
    rw [abs_of_nonpos (by linarith)]
    linarith
  have hval : steeringIntensityFn s = 1.0 := by
    rw [steeringIntensityFn, if_neg (by rw [hs]; push_neg; linarith),
        if_pos (by rw [hs]; linarith)]
  have hval6 : steeringIntensityFn 0.6 = 0.8 := by
    norm_num [steeringIntensityFn]
  have habs : |(1.0 : ℚ) - 0.8| = 0.2 := by
    rw [abs_of_nonneg (by norm_num)]
    norm_num
  have := hall s hsS hclose
  rw [hval, hval6, habs] at this
  norm_num at this

/-- **C4 witness**: concrete instances of the amended theorem — the value at
normalized speeds 0.1, 0.3 and 0.8, and non-increase from 0.25 to 0.9. -/
theorem C4_steering_witness :
    steeringIntensityFn 0.1 = 1.2 ∧ steeringIntensityFn 0.3 = 1.0 ∧
    steeringIntensityFn 0.8 = 0.8 - (0.8 - 0.6) * 0.3 ∧
    steeringIntensityFn 0.9 ≤ steeringIntensityFn 0.25 :=
  ⟨C4_steering_piecewise_monotone.2.1 0.1 (by norm_num),
   C4_steering_piecewise_monotone.2.2.1 0.3 (by norm_num) (by norm_num),
   C4_steering_piecewise_monotone.2.2.2.1 0.8 (by norm_num),
   C4_steering_piecewise_monotone.2.2.2.2 0.25 0.9 (by norm_num) (by norm_num)
     (by norm_num)⟩

/-- **C9**: the boost resource stays within bounds: the initial state
satisfies `0 ≤ available ≤ max`; `updateBoost` preserves it for every
`Δt ≥ 0` whether or not the boost is active (depletion clamps at 0,
recharge clamps at `max`); and the boost-application block never touches
`available` or `max`. -/
theorem C9_boost_within_bounds :
    (0 ≤ setupSpeedBoost.available ∧
     setupSpeedBoost.available ≤ setupSpeedBoost.max) ∧
    (∀ (dt : ℚ) (b : BoostState), 0 ≤ dt →
      0 ≤ b.rechargeRate → 0 ≤ b.depleteRate →
      0 ≤ b.available → b.available ≤ b.max →
      0 ≤ (updateBoost dt b).available ∧
      (updateBoost dt b).available ≤ (updateBoost dt b).max) ∧
    (∀ (dt : ℚ) (b : BoostState) (car : CarState),
      (applyBoost dt b car).1.available = b.available ∧
      (applyBoost dt b car).1.max = b.max) := by
  refine ⟨by norm_num [setupSpeedBoost], ?_, ?_⟩
  · intro dt b hdt hrr hdr h0 hm
    unfold updateBoost
    split_ifs with hact
    · constructor
      · exact le_max_left 0 _
      · simp only [max_le_iff]
        have : 0 ≤ b.depleteRate * dt := mul_nonneg hdr hdt
        constructor <;> [linarith; linarith]
    · constructor
      · have : 0 ≤ b.rechargeRate * dt := mul_nonneg hrr hdt
        have hmax0 : (0 : ℚ) ≤ b.max := le_trans h0 hm
        simp only [le_min_iff]
        constructor <;> linarith
      · exact min_le_left _ _
  · intro dt b car
    unfold applyBoost
    simp only [apply_ite (Prod.fst (β := CarState)), apply_ite BoostState.available,
      apply_ite BoostState.max]
    split_ifs <;> simp

/-- **C9 witness**: the preservation part applied at `Δt = 1` from the
initial boost state (active, so depleting from 100 by 30). -/
theorem C9_boost_within_bounds_witness :
    0 ≤ (updateBoost 1 { setupSpeedBoost with active := true }).available ∧
    (updateBoost 1 { setupSpeedBoost with active := true }).available ≤
      (updateBoost 1 { setupSpeedBoost with active := true }).max :=
  C9_boost_within_bounds.2.1 1 { setupSpeedBoost with active := true }
    (by norm_num) (by norm_num [setupSpeedBoost]) (by norm_num [setupSpeedBoost])
    (by norm_num [setupSpeedBoost]) (by norm_num [setupSpeedBoost])

/-- A trash can at rest at its original pose (never knocked over), for the
C8 counterexample. -/
def trashCanAtRest : PropObj :=
  { ptype := PropType.trashCan, position := ⟨1, 0.25, 1⟩,
    rotation := Vec3.zero, velocity := Vec3.zero,
    angularVelocity := Vec3.zero, originalPosition := ⟨1, 0.25, 1⟩,
    originalRotation := Vec3.zero, mass := 5, radius := 0.8, height := 0.5,
    isKnockedOver := false, resetTimer := 0, hasPole := false,
    poleRadius := 0, hasLight := false, lightIntensity := 0 }

/-- A random draw whose sidewalk position differs from the trash can's
original position. -/
def propRandC8 : PropRand := ⟨Vec3.zero, ⟨5, 0.25, -7⟩⟩

/-- **C8 counterexample**: resetting an untouched, at-rest trash can is *not*
idempotent — `resetPhysicsObject` moves a trash can to a freshly sampled
sidewalk position, so its position changes even though it was at its
original pose with zero velocities and was never knocked over. -/
theorem C8_counterexample_trashCan_moves :
    trashCanAtRest.position = trashCanAtRest.originalPosition ∧
    trashCanAtRest.velocity = Vec3.zero ∧
    trashCanAtRest.angularVelocity = Vec3.zero ∧
    trashCanAtRest.isKnockedOver = false ∧
    (resetPhysicsObject propRandC8 trashCanAtRest).position ≠
      trashCanAtRest.position := by
  refine ⟨rfl, rfl, rfl, rfl, ?_⟩
  decide

/-- **C8** (amended): for every prop type *except* `trashCan`, resetting a
prop that is at rest at its original pose and was never knocked over leaves
its position, rotation, velocity and angular velocity unchanged.  (A trash
can is instead relocated to a freshly sampled sidewalk position — see the
counterexample.) -/
theorem C8_reset_idempotent_except_trashCan :
    ∀ (rand : PropRand) (obj : PropObj),
      obj.ptype ≠ PropType.trashCan →
      obj.position = obj.originalPosition →
      obj.rotation = obj.originalRotation →
      obj.velocity = Vec3.zero →
      obj.angularVelocity = Vec3.zero →
      obj.isKnockedOver = false →
      (resetPhysicsObject rand obj).position = obj.position ∧
      (resetPhysicsObject rand obj).rotation = obj.rotation ∧
      (resetPhysicsObject rand obj).velocity = obj.velocity ∧
      (resetPhysicsObject rand obj).angularVelocity = obj.angularVelocity ∧
      (resetPhysicsObject rand obj).isKnockedOver = obj.isKnockedOver := by
  intro rand obj htype hpos hrot hvel hang hknock
  unfold resetPhysicsObject
  rw [if_neg (by simpa using htype)]
  dsimp only
  split_ifs <;> simp [hpos, hrot, hvel, hang, hknock]

/-- An untouched bench at rest, for the C8 witness. -/
def benchAtRest : PropObj :=
  { trashCanAtRest with ptype := PropType.bench, mass := 15 }

/-- **C8 witness**: the amended theorem applied to a concrete at-rest
bench. -/
theorem C8_reset_idempotent_witness :
    (resetPhysicsObject propRandC8 benchAtRest).position = benchAtRest.position ∧
    (resetPhysicsObject propRandC8 benchAtRest).rotation = benchAtRest.rotation ∧
    (resetPhysicsObject propRandC8 benchAtRest).velocity = benchAtRest.velocity ∧
    (resetPhysicsObject propRandC8 benchAtRest).angularVelocity =
      benchAtRest.angularVelocity ∧
    (resetPhysicsObject propRandC8 benchAtRest).isKnockedOver =
      benchAtRest.isKnockedOver :=
  C8_reset_idempotent_except_trashCan propRandC8 benchAtRest
    (by decide) rfl rfl rfl rfl rfl

/-- A car parked beyond the eastern play boundary (`x = 100`, bound 85),
rolling slowly back toward the city, for the C1 evaluation. -/
def carBeyondBoundary : CarState :=
  { carInit with position := ⟨100, 0.5, 0⟩, direction := ⟨-1, 0, 0⟩,
                 velocity := ⟨-5, 0, 0⟩, speed := 5 }

/-- **C1** (code bug): the boundary-enforcement block of `Game.update` runs
(its out-of-bounds branch fires, halving the speed, part_000 2733) yet the
car's *stored* position is left at `x = 100`, strictly beyond the playable
bound `halfSize − buffer = 85`: the clamp of part_000 2683–2691 is applied to
the clone returned by `Car.getPosition()` and never written back, although
the surrounding comments say the car is "pushed back" and "never goes beyond
the city limits". -/
theorem C1_boundary_clamp_is_lost :
    citySize * blockSize + (citySize + 1) * roadWidth = 190 ∧
    ((190 : ℚ) / 2 - 10) = 85 ∧
    (enforceBoundary trig0 citySize blockSize roadWidth
        carBeyondBoundary).position.x = 100 ∧
    (enforceBoundary trig0 citySize blockSize roadWidth
        carBeyondBoundary).speed = 5 * 0.5 ∧
    ¬ |(enforceBoundary trig0 citySize blockSize roadWidth
        carBeyondBoundary).position.x| ≤ 85 := by
  have hnorm : Vec3.normalize ⟨-1, 0, 0⟩ = ⟨-1, 0, 0⟩ := by
    have h1 : ratSqrt (Vec3.magSq ⟨-1, 0, 0⟩) = ((1 : ℕ) : ℚ) :=
      ratSqrt_of_sq 1 _ (by norm_num [Vec3.magSq])
    simp only [Vec3.normalize, Vec3.length, h1]
    norm_num [Vec3.smul]
  refine ⟨by norm_num [citySize, blockSize, roadWidth], by norm_num, ?_, ?_, ?_⟩ <;>
    simp only [enforceBoundary, carBeyondBoundary, carInit, citySize, blockSize,
      roadWidth, qsign] <;>
    norm_num [hnorm, Vec3.dot]

/-- **C5**: the pedestrian state machine is terminal in `Dead` — the
per-pedestrian tick returns a dead pedestrian entirely unchanged with zero
score contribution — and from any non-dead state, a tick on which the car is
within `carRadius + pedestrianRadius` of the pedestrian (with Y pinned to
the ground, as the source does first) while `|speed|` exceeds the kill-speed
threshold 5 ends with the pedestrian in state `dead` with `isDead` set. -/
theorem C5_dead_terminal_and_kill :
    (∀ (t : Trig) (rand : HumanRand) (carPosition : Vec3)
       (carRadius carSpeed : ℚ) (obstacles : List Obstacle)
       (cs bs rw dt : ℚ) (h : Human), h.isDead = true →
       updateHuman t rand carPosition carRadius carSpeed obstacles
         cs bs rw dt h = (h, 0)) ∧
    (∀ (t : Trig) (rand : HumanRand) (carPosition : Vec3)
       (carRadius carSpeed : ℚ) (obstacles : List Obstacle)
       (cs bs rw dt : ℚ) (h : Human), h.isDead = false →
       Vec3.distSq { h.position with y := 0 } carPosition <
         (carRadius + h.boundingRadius) * (carRadius + h.boundingRadius) →
       carSpeed > 5 →
       (updateHuman t rand carPosition carRadius carSpeed obstacles
          cs bs rw dt h).1.state = HState.dead ∧
       (updateHuman t rand carPosition carRadius carSpeed obstacles
          cs bs rw dt h).1.isDead = true) := by
  constructor
  · intro t rand carPosition carRadius carSpeed obstacles cs bs rw dt h hdead
    unfold updateHuman
    rw [if_pos hdead]
  · intro t rand carPosition carRadius carSpeed obstacles cs bs rw dt h
      hlive hclose hfast
    unfold updateHuman
    rw [if_neg (by simp [hlive])]
    dsimp only
    rw [if_pos ⟨hclose, hfast⟩]
    unfold killHuman
    rw [if_neg (by simp [hlive])]
    exact ⟨rfl, rfl⟩

/-- A dead pedestrian, for the C5 witness. -/
def deadHuman : Human :=
  { position := ⟨3, 0, 4⟩, velocity := Vec3.zero, rotation := 0,
    walkSpeed := 2, walkHorizontal := true, state := HState.dead,
    runningFrom := none, fleeSpeed := 5, detectionRadius := 15,
    pointValue := 100, isDead := true, boundingRadius := 0.4 }

/-- A live walking pedestrian about to be run over, for the C5 witness. -/
def walkingHuman : Human :=
  { deadHuman with position := ⟨0, 0, 0⟩, state := HState.walking,
                   isDead := false }

/-- A fixed random draw for pedestrian ticks. -/
def humanRand0 : HumanRand := ⟨true, false, ⟨0, 0, 1⟩⟩

/-- **C5 witness**: both parts applied concretely — a dead pedestrian is
unchanged by a tick, and a walking pedestrian 1.5 m from a car moving at
speed 10 is dead at the end of that tick. -/
theorem C5_dead_terminal_and_kill_witness :
    updateHuman trig0 humanRand0 ⟨1, 0.5, 1⟩ carBoundingRadius 10 []
      citySize blockSize roadWidth (1 / 60) deadHuman = (deadHuman, 0) ∧
    (updateHuman trig0 humanRand0 ⟨1, 0.5, 1⟩ carBoundingRadius 10 []
      citySize blockSize roadWidth (1 / 60) walkingHuman).1.state =
      HState.dead :=
  ⟨C5_dead_terminal_and_kill.1 trig0 humanRand0 ⟨1, 0.5, 1⟩ carBoundingRadius
      10 [] citySize blockSize roadWidth (1 / 60) deadHuman rfl,
   (C5_dead_terminal_and_kill.2 trig0 humanRand0 ⟨1, 0.5, 1⟩ carBoundingRadius
      10 [] citySize blockSize roadWidth (1 / 60) walkingHuman rfl
      (by norm_num [Vec3.distSq, Vec3.magSq, Vec3.sub, walkingHuman, deadHuman,
        carBoundingRadius]) (by norm_num)).1⟩

/-- A walking pedestrian (velocity from its walk, magnitude `walkSpeed = 2`,
`fleeSpeed = 5`) about to notice the car, for the C6 analysis. -/
def noticingHuman : Human :=
  { position := ⟨0, 0, 0⟩, velocity := ⟨2, 0, 0⟩, rotation := 0,
    walkSpeed := 2, walkHorizontal := true, state := HState.walking,
    runningFrom := none, fleeSpeed := 5, detectionRadius := 15,
    pointValue := 100, isDead := false, boundingRadius := 0.4 }

/-- **C6 counterexample**: a walking pedestrian whose distance to the car
drops inside `detectionRadius` (distance 10-ish < 15, and it is not killed:
the car is stopped) does switch to `Fleeing` on that tick, but its velocity
is left at its walking value `(2,0,0)` — its magnitude is *not* `fleeSpeed`
on that tick (`4 ≠ 25` squared). -/
theorem C6_counterexample_velocity_unchanged :
    (updateHuman trig0 humanRand0 ⟨10, 0.5, 0⟩ carBoundingRadius 0 []
       citySize blockSize roadWidth (1 / 60) noticingHuman).1.state =
      HState.fleeing ∧
    (updateHuman trig0 humanRand0 ⟨10, 0.5, 0⟩ carBoundingRadius 0 []
       citySize blockSize roadWidth (1 / 60) noticingHuman).1.velocity =
      ⟨2, 0, 0⟩ ∧
    Vec3.magSq (updateHuman trig0 humanRand0 ⟨10, 0.5, 0⟩ carBoundingRadius 0
       [] citySize blockSize roadWidth (1 / 60) noticingHuman).1.velocity ≠
      noticingHuman.fleeSpeed * noticingHuman.fleeSpeed := by
  norm_num [updateHuman, noticingHuman, humanRand0, Vec3.distSq, Vec3.magSq,
    Vec3.sub, carBoundingRadius]

/-- **C6** (amended): for a walking pedestrian, on a tick where the car's
distance drops below `detectionRadius` (and it is neither killed nor beyond
the 500-unit AI cutoff), the state equals `Fleeing` at the end of that tick,
the flee target is recorded, and no score is awarded — but the velocity is
left *unchanged* that tick (the flee velocity of magnitude `fleeSpeed` is
only assigned on later ticks, in the fleeing arm). -/
theorem C6_walking_becomes_fleeing :
    ∀ (t : Trig) (rand : HumanRand) (carPosition : Vec3)
      (carRadius carSpeed : ℚ) (obstacles : List Obstacle) (cs bs rw dt : ℚ)
      (h : Human), h.isDead = false → h.state = HState.walking →
      ¬(Vec3.distSq { h.position with y := 0 } carPosition <
          (carRadius + h.boundingRadius) * (carRadius + h.boundingRadius) ∧
        carSpeed > 5) →
      Vec3.distSq { h.position with y := 0 } carPosition ≤ 500 * 500 →
      Vec3.distSq { h.position with y := 0 } carPosition <
        h.detectionRadius * h.detectionRadius →
      (updateHuman t rand carPosition carRadius carSpeed obstacles
         cs bs rw dt h).1.state = HState.fleeing ∧
      (updateHuman t rand carPosition carRadius carSpeed obstacles
         cs bs rw dt h).1.velocity = h.velocity ∧
      (updateHuman t rand carPosition carRadius carSpeed obstacles
         cs bs rw dt h).1.runningFrom = some carPosition ∧
      (updateHuman t rand carPosition carRadius carSpeed obstacles
         cs bs rw dt h).2 = 0 := by
  intro t rand carPosition carRadius carSpeed obstacles cs bs rw dt h
    hlive hwalk hnokill hnear hdetect
  unfold updateHuman
  rw [if_neg (by simp [hlive])]
  dsimp only
  rw [if_neg hnokill, if_neg (by push_neg; exact hnear), if_pos (by simp [hwalk]),
      if_pos hdetect]
  exact ⟨rfl, rfl, rfl, rfl⟩

/-- **C6 witness**: the amended theorem applied to the concrete noticing
pedestrian: state flips to `Fleeing`, velocity stays `(2,0,0)`. -/
theorem C6_walking_becomes_fleeing_witness :
    (updateHuman trig0 humanRand0 ⟨10, 0.5, 0⟩ carBoundingRadius 0 []
       citySize blockSize roadWidth (1 / 60) noticingHuman).1.state =
      HState.fleeing ∧
    (updateHuman trig0 humanRand0 ⟨10, 0.5, 0⟩ carBoundingRadius 0 []
       citySize blockSize roadWidth (1 / 60) noticingHuman).1.velocity =
      noticingHuman.velocity :=
  ⟨(C6_walking_becomes_fleeing trig0 humanRand0 ⟨10, 0.5, 0⟩ carBoundingRadius
      0 [] citySize blockSize roadWidth (1 / 60) noticingHuman rfl rfl
      (by norm_num [Vec3.distSq, Vec3.magSq, Vec3.sub, noticingHuman])
      (by norm_num [Vec3.distSq, Vec3.magSq, Vec3.sub, noticingHuman])
      (by norm_num [Vec3.distSq, Vec3.magSq, Vec3.sub, noticingHuman])).1,
   (C6_walking_becomes_fleeing trig0 humanRand0 ⟨10, 0.5, 0⟩ carBoundingRadius
      0 [] citySize blockSize roadWidth (1 / 60) noticingHuman rfl rfl
      (by norm_num [Vec3.distSq, Vec3.magSq, Vec3.sub, noticingHuman])
      (by norm_num [Vec3.distSq, Vec3.magSq, Vec3.sub, noticingHuman])
      (by norm_num [Vec3.distSq, Vec3.magSq, Vec3.sub, noticingHuman])).2.1⟩

/-- A directional test ramp of height 2 at the origin. -/
def rampA : Ramp :=
  { kind := RampKind.directional, omnidirectional := false,
    position := ⟨0, 0, 0⟩, rotation := 0, width := 10, length := 8,
    height := 2, radius := 0, jumpStrength := 10 }

/-- The same footprint, height 4. -/
def rampB : Ramp := { rampA with height := 4 }

/-- **C7 counterexample**: with two overlapping *directional* ramps both
containing the car position, the scan does not stop at the first match — the
*later* ramp in list order is the one recorded as active (`currentRamp` and
`rampHeight` come from `rampB`, not from the first-matching `rampA`). -/
theorem C7_counterexample_first_match_loses :
    dirRampContains trig0 rampA carInit.position = true ∧
    dirRampContains trig0 rampB carInit.position = true ∧
    rampA ≠ rampB ∧
    (checkRampInteractions trig0 [rampA, rampB] carInit).currentRamp =
      some rampB ∧
    (checkRampInteractions trig0 [rampA, rampB] carInit).rampHeight = 2 ∧
    dirRampHeightAt trig0 rampA carInit.position = 1 := by
  refine ⟨?_, ?_, ?_, ?_, ?_, ?_⟩ <;>
    norm_num [dirRampContains, rampA, rampB, carInit, checkRampInteractions,
      rampLoop, isLaunchpadRamp, processDirRamp, dirRampNormalizedPos,
      dirRampHeightAt, rampForwardAxis, rampRightAxis, applyAxisAngleY, trig0,
      Vec3.sub, Vec3.dot]

/-- Whether the scan's containment test succeeds for a ramp (launchpads use
the radial test, everything else the rectangle test). -/
def rampMatches (t : Trig) (pos : Vec3) (r : Ramp) : Bool :=
  if isLaunchpadRamp r then launchpadContains r pos
  else dirRampContains t r pos

/-- The *last* ramp in the list whose directional footprint contains
`pos`. -/
def lastDirMatch (t : Trig) (pos : Vec3) : List Ramp → Option Ramp
  | [] => none
  | r :: rest =>
    match lastDirMatch t pos rest with
    | some x => some x
    | none => if dirRampContains t r pos then some r else none

/-- When no ramp's containment test succeeds, the scan loop is the
identity. -/
theorem rampLoop_no_match (t : Trig) (carPos carDir : Vec3) (carSpeed : ℚ) :
    ∀ (rs : List Ramp) (acc : RampScan),
      (∀ r ∈ rs, rampMatches t carPos r = false) →
      rampLoop t carPos carDir carSpeed rs acc = acc := by
  intro rs
  induction rs with
  | nil => intro acc _; rfl
  | cons r rest ih =>
    intro acc hno
    have hr := hno r (List.mem_cons_self r rest)
    have hrest : ∀ x ∈ rest, rampMatches t carPos x = false :=
      fun x hx => hno x (List.mem_cons_of_mem r hx)
    unfold rampLoop
    unfold rampMatches at hr
    by_cases hl : isLaunchpadRamp r = true
    · rw [if_pos hl]
      rw [if_pos hl] at hr
      rw [if_neg (by simp [hr])]
      exact ih acc hrest
    · rw [if_neg hl]
      rw [if_neg hl] at hr
      rw [if_neg (by simp [hr])]
      exact ih acc hrest

/-- On a list of directional-only ramps the scan records the *last* matching
ramp (and its height at the snapshot position), and flags `onAnyRamp` iff
some ramp matched. -/
theorem rampLoop_last_match (t : Trig) (carPos carDir : Vec3) (carSpeed : ℚ) :
    ∀ (rs : List Ramp) (acc : RampScan),
      (∀ r ∈ rs, isLaunchpadRamp r = false) →
      (rampLoop t carPos carDir carSpeed rs acc).currentRamp =
        (match lastDirMatch t carPos rs with
         | some x => some x
         | none => acc.currentRamp) ∧
      (rampLoop t carPos carDir carSpeed rs acc).currentRampHeight =
        (match lastDirMatch t carPos rs with
         | some x => dirRampHeightAt t x carPos
         | none => acc.currentRampHeight) := by
  intro rs
  induction rs with
  | nil => intro acc _; exact ⟨rfl, rfl⟩
  | cons r rest ih =>
    intro acc hdir
    have hr := hdir r (List.mem_cons_self r rest)
    have hrest : ∀ x ∈ rest, isLaunchpadRamp x = false :=
      fun x hx => hdir x (List.mem_cons_of_mem r hx)
    unfold rampLoop
    rw [if_neg (by simp [hr])]
    unfold lastDirMatch
    by_cases hc : dirRampContains t r carPos = true
    · rw [if_pos hc]
      obtain ⟨ih1, ih2⟩ := ih (processDirRamp t r carPos carDir carSpeed acc) hrest
      rw [ih1, ih2]
      cases hlast : lastDirMatch t carPos rest with
      | some x => exact ⟨rfl, rfl⟩
      | none =>
        rw [if_pos hc]
        exact ⟨rfl, rfl⟩
    · rw [if_neg hc]
      obtain ⟨ih1, ih2⟩ := ih acc hrest
      rw [ih1, ih2]
      cases hlast : lastDirMatch t carPos rest with
      | some x => exact ⟨rfl, rfl⟩
      | none =>
        rw [if_neg hc]
        exact ⟨rfl, rfl⟩

/-- **C7** (amended): if no ramp or launchpad footprint contains the vehicle
position and the vehicle is grounded, its height resets to the nominal ride
height 0.5 and no ramp is recorded active; but among matching *directional*
ramps it is the **last** match in list order (not the first) that wins —
every matching directional ramp is processed and the final `currentRamp` /
`rampHeight` come from the last one.  (Launchpads do stop the scan at the
first match.) -/
theorem C7_ramp_gating :
    (∀ (t : Trig) (ramps : List Ramp) (car : CarState),
      (∀ r ∈ ramps, rampMatches t car.position r = false) →
      car.isAirborne = false →
      (checkRampInteractions t ramps car).position.y = 0.5 ∧
      (checkRampInteractions t ramps car).onRamp = false ∧
      (checkRampInteractions t ramps car).rampHeight = 0 ∧
      (checkRampInteractions t ramps car).currentRamp = none) ∧
    (∀ (t : Trig) (ramps : List Ramp) (car : CarState),
      (∀ r ∈ ramps, isLaunchpadRamp r = false) →
      (checkRampInteractions t ramps car).currentRamp =
        lastDirMatch t car.position ramps ∧
      (checkRampInteractions t ramps car).rampHeight =
        (match lastDirMatch t car.position ramps with
         | some x => dirRampHeightAt t x car.position
         | none => 0)) := by
  constructor
  · intro t ramps car hno hground
    unfold checkRampInteractions
    dsimp only
    rw [rampLoop_no_match t car.position car.direction |car.speed| ramps _ hno]
    simp [hground]
  · intro t ramps car hdir
    unfold checkRampInteractions
    dsimp only
    obtain ⟨h1, h2⟩ := rampLoop_last_match t car.position car.direction
      |car.speed| ramps
      { car := car, onAnyRamp := false, currentRampHeight := 0,
        currentRamp := none } hdir
    constructor
    · rw [h1]
      cases lastDirMatch t car.position ramps <;> rfl
    · rw [h2]

/-- A directional ramp far from the origin (footprint misses the car). -/
def rampFar : Ramp := { rampA with position := ⟨50, 0, 0⟩ }

/-- **C7 witness**: the amended theorem applied concretely — with only the
far ramp in the list, a grounded car at the origin gets its height reset to
0.5 and no active ramp; and the directional-only last-match rule evaluates
to `none` there. -/
theorem C7_ramp_gating_witness :
    (checkRampInteractions trig0 [rampFar] carInit).position.y = 0.5 ∧
    (checkRampInteractions trig0 [rampFar] carInit).onRamp = false ∧
    (checkRampInteractions trig0 [rampFar] carInit).currentRamp =
      lastDirMatch trig0 carInit.position [rampFar] :=
  ⟨(C7_ramp_gating.1 trig0 [rampFar] carInit
      (by
        intro r hr
        rw [List.mem_singleton] at hr
        subst hr
        norm_num [rampMatches, isLaunchpadRamp, rampFar, rampA,
          dirRampContains, carInit, rampForwardAxis, rampRightAxis,
          applyAxisAngleY, trig0, Vec3.sub, Vec3.dot])
      rfl).1,
   (C7_ramp_gating.1 trig0 [rampFar] carInit
      (by
        intro r hr
        rw [List.mem_singleton] at hr
        subst hr
        norm_num [rampMatches, isLaunchpadRamp, rampFar, rampA,
          dirRampContains, carInit, rampForwardAxis, rampRightAxis,
          applyAxisAngleY, trig0, Vec3.sub, Vec3.dot])
      rfl).2.1,
   (C7_ramp_gating.2 trig0 [rampFar] carInit
      (by
        intro r hr
        rw [List.mem_singleton] at hr
        subst hr
        norm_num [isLaunchpadRamp, rampFar, rampA])).1⟩

/-- Squared lengths are nonnegative. -/
theorem Vec3.magSq_nonneg (v : Vec3) : 0 ≤ v.magSq := by
  unfold magSq
  nlinarith [mul_self_nonneg v.x, mul_self_nonneg v.y, mul_self_nonneg v.z]

/-- A nonzero vector has positive squared length. -/
theorem Vec3.magSq_pos (v : Vec3) (h : v ≠ Vec3.zero) : 0 < v.magSq := by
  obtain ⟨x, y, z⟩ := v
  rcases lt_or_eq_of_le (Vec3.magSq_nonneg ⟨x, y, z⟩) with h1 | h1
  · exact h1
  · exfalso
    apply h
    unfold magSq at h1
    dsimp only at h1
    have hx : x = 0 := by
      nlinarith [mul_self_nonneg x, mul_self_nonneg y, mul_self_nonneg z]
    have hy : y = 0 := by
      nlinarith [mul_self_nonneg x, mul_self_nonneg y, mul_self_nonneg z]
    have hz : z = 0 := by
      nlinarith [mul_self_nonneg x, mul_self_nonneg y, mul_self_nonneg z]
    rw [hx, hy, hz]
    rfl

/-- `ratSqrt` is nonnegative. -/
theorem ratSqrt_nonneg (q : ℚ) : 0 ≤ ratSqrt q := by
  unfold ratSqrt
  exact div_nonneg (by positivity) (by positivity)

/-- Squared length of a scalar multiple. -/
theorem Vec3.magSq_smul (k : ℚ) (v : Vec3) :
    (Vec3.smul k v).magSq = k * k * v.magSq := by
  unfold magSq smul
  ring

/-- Squared distance from `p + d·u` back to `p`. -/
theorem Vec3.distSq_add_smul (p : Vec3) (d : ℚ) (u : Vec3) :
    Vec3.distSq (Vec3.add p (Vec3.smul d u)) p = d * d * u.magSq := by
  unfold distSq magSq add smul sub
  ring

/-- A vector of rational length normalises to a unit vector. -/
theorem Vec3.magSq_normalize (v : Vec3) (h : HasRatLen v) (h0 : v ≠ Vec3.zero) :
    v.normalize.magSq = 1 := by
  unfold normalize
  rw [Vec3.magSq_smul]
  unfold HasRatLen at h
  have hpos := Vec3.magSq_pos v h0
  have hL : v.length * v.length = v.magSq := h
  have hLne : v.length ≠ 0 := by
    intro hL0
    rw [hL0, mul_zero] at hL
    linarith
  rw [← hL]
  calc 1 / v.length * (1 / v.length) * (v.length * v.length)
      = v.length / v.length * (v.length / v.length) := by ring
    _ = 1 := by rw [div_self hLne]; norm_num

/-- The normalisation factor of a nonzero rational-length vector is
positive. -/
theorem Vec3.length_pos (v : Vec3) (h : HasRatLen v) (h0 : v ≠ Vec3.zero) :
    0 < v.length := by
  rcases lt_or_eq_of_le (ratSqrt_nonneg v.magSq) with h1 | h1
  · exact h1
  · exfalso
    unfold HasRatLen at h
    have hpos := Vec3.magSq_pos v h0
    unfold Vec3.length at *
    rw [← h1, mul_zero] at h
    linarith

/-- **C3**: when `Car.update` resolves a collision whose result carries a
contact normal, the new scalar speed is `|impact speed| · bounceFactor` with
`bounceFactor = 0.3 ∈ (0,1)`, the new direction is the (normalised)
reflection `v − 2(v·n)n` of the velocity about the contact normal, and the
post-resolution position sits at squared distance at least
`(carRadius + obstacleRadius)²` from the obstacle centre.  (The `HasRatLen`
hypotheses say the two normalised vectors have rational length, making the
embedded square root exact.) -/
theorem C3_collision_response (t : Trig) (car : CarState) (obstacle : Obstacle)
    (n : Vec3)
    (hrefl : HasRatLen
      (Vec3.sub car.velocity (Vec3.smul (2 * car.velocity.dot n) n)))
    (hrefl0 : Vec3.sub car.velocity (Vec3.smul (2 * car.velocity.dot n) n) ≠
      Vec3.zero)
    (hpush : HasRatLen (Vec3.sub car.position obstacle.position))
    (hpush0 : Vec3.sub car.position obstacle.position ≠ Vec3.zero)
    (hr : 0 ≤ obstacle.boundingRadius) :
    (resolveCollision t obstacle (some n) car).speed =
      |car.speed| * bounceFactor ∧
    0 < bounceFactor ∧ bounceFactor < 1 ∧
    Vec3.magSq (resolveCollision t obstacle (some n) car).direction = 1 ∧
    (∃ k : ℚ, 0 < k ∧
      (resolveCollision t obstacle (some n) car).direction =
        Vec3.smul k
          (Vec3.sub car.velocity (Vec3.smul (2 * car.velocity.dot n) n))) ∧
    (carBoundingRadius + obstacle.boundingRadius) *
        (carBoundingRadius + obstacle.boundingRadius) ≤
      Vec3.distSq (resolveCollision t obstacle (some n) car).position
        obstacle.position := by
  set refl := Vec3.sub car.velocity (Vec3.smul (2 * car.velocity.dot n) n)
    with hrefl_def
  have hbounce : (0 : ℚ) < bounceFactor ∧ bounceFactor < 1 := by
    norm_num [bounceFactor]
  have hLpos := Vec3.length_pos refl hrefl hrefl0
  have hkpos : 0 < 1 / refl.length := by positivity
  have hunit := Vec3.magSq_normalize refl hrefl hrefl0
  have hpushUnit := Vec3.magSq_normalize _ hpush hpush0
  have hrSum : (0 : ℚ) < carBoundingRadius + obstacle.boundingRadius := by
    unfold carBoundingRadius
    linarith
  unfold resolveCollision
  dsimp only
  split_ifs
  all_goals
    refine ⟨rfl, hbounce.1, hbounce.2, hunit, ⟨1 / refl.length, hkpos, rfl⟩, ?_⟩
  all_goals
    first
      | exact le_of_lt (by assumption)
      | (show _ ≤ Vec3.distSq (Vec3.add obstacle.position _) obstacle.position
         rw [Vec3.distSq_add_smul, hpushUnit]
         nlinarith [hrSum])

/-- A car driving head-on (+z, speed 20) for the C3 witness. -/
def headOnCar : CarState :=
  { carInit with velocity := ⟨0, 0, 20⟩, speed := 20 }

/-- A spherical obstacle of radius 2 dead ahead of the car. -/
def ballObstacle : Obstacle :=
  { kind := ObstacleKind.other, position := ⟨0, 0.5, 5⟩, boundingRadius := 2,
    hasGeom := false, width := 0, depth := 0, rotY := 0 }

/-- **C3 witness**: the collision-response theorem applied to the concrete
head-on impact at speed 20 against the radius-2 sphere with contact normal
`(0,0,−1)`: speed becomes `20 · 0.3`, the direction is a unit vector, and
the car ends at squared distance at least `(1.8 + 2)²` from the obstacle. -/
theorem C3_collision_response_witness :
    (resolveCollision trig0 ballObstacle (some ⟨0, 0, -1⟩) headOnCar).speed =
      |headOnCar.speed| * bounceFactor ∧
    Vec3.magSq
      (resolveCollision trig0 ballObstacle (some ⟨0, 0, -1⟩) headOnCar).direction
      = 1 ∧
    (carBoundingRadius + ballObstacle.boundingRadius) *
        (carBoundingRadius + ballObstacle.boundingRadius) ≤
      Vec3.distSq
        (resolveCollision trig0 ballObstacle (some ⟨0, 0, -1⟩) headOnCar).position
        ballObstacle.position := by
  have hreflEq :
      Vec3.sub headOnCar.velocity
        (Vec3.smul (2 * headOnCar.velocity.dot ⟨0, 0, -1⟩) ⟨0, 0, -1⟩) =
      (⟨0, 0, -20⟩ : Vec3) := by
    norm_num [headOnCar, carInit, Vec3.sub, Vec3.smul, Vec3.dot]
  have hpushEq :
      Vec3.sub headOnCar.position ballObstacle.position =
      (⟨0, 0, -5⟩ : Vec3) := by
    norm_num [headOnCar, carInit, ballObstacle, Vec3.sub]
  have h := C3_collision_response trig0 headOnCar ballObstacle ⟨0, 0, -1⟩
    (by
      rw [hreflEq]
      unfold HasRatLen
      rw [ratSqrt_of_sq 20 _ (by norm_num [Vec3.magSq])]
      norm_num [Vec3.magSq])
    (by rw [hreflEq]; simp [Vec3.zero])
    (by
      rw [hpushEq]
      unfold HasRatLen
      rw [ratSqrt_of_sq 5 _ (by norm_num [Vec3.magSq])]
      norm_num [Vec3.magSq])
    (by rw [hpushEq]; simp [Vec3.zero])
    (by norm_num [ballObstacle])
  exact ⟨h.1, h.2.2.2.1, h.2.2.2.2.2⟩

set_option maxHeartbeats 2000000 in
/-- **C2** (amended): `Car.update`'s own longitudinal control keeps the speed
inside `[−maxSpeed/2, maxSpeed]` whenever it starts inside, for every
`Δt ≥ 0` and every input; but speed pushed above `maxSpeed` by the boost (or
a ramp nudge) is *not* re-clamped on the following tick — without forward
input it merely decays at the passive-deceleration rate
(`max (s − 8·Δt) 0`), so the excess can persist across many ticks, and it is
clamped back to `maxSpeed` only on a tick with forward input
(`min (s + 25·Δt) maxSpeed`). -/
theorem C2_longitudinal_speed_clamp :
    (∀ (inp : Input) (dt : ℚ) (car : CarState), 0 ≤ dt →
      -(carMaxSpeed / 2) ≤ car.speed → car.speed ≤ carMaxSpeed →
      -(carMaxSpeed / 2) ≤ (applySpeedInput inp dt car).speed ∧
      (applySpeedInput inp dt car).speed ≤ carMaxSpeed) ∧
    (∀ (inp : Input) (dt : ℚ) (car : CarState),
      car.isAirborne = false → inp.up = false → inp.down = false →
      car.speed > 0 →
      (applySpeedInput inp dt car).speed =
        max (car.speed - carDeceleration * dt) 0) ∧
    (∀ (inp : Input) (dt : ℚ) (car : CarState),
      car.isAirborne = false → inp.up = true →
      (applySpeedInput inp dt car).speed =
        min (car.speed + carAcceleration * dt) carMaxSpeed) := by
  refine ⟨?_, ?_, ?_⟩
  · intro inp dt car hdt hlo hhi
    have h25 : 0 ≤ 25 * dt := by linarith
    have h35 : 0 ≤ 35 * dt := by linarith
    have h8 : 0 ≤ 8 * dt := by linarith
    have h08 : 0 ≤ 8 * 0.1 * dt := by linarith
    unfold applySpeedInput
    unfold carMaxSpeed carAcceleration carBraking carDeceleration at *
    dsimp only
    split_ifs <;>
      constructor <;>
      (try simp only [le_min_iff, min_le_iff, le_max_iff, max_le_iff]) <;>
      first
        | linarith
        | (constructor <;> linarith)
        | (left; linarith)
        | (right; linarith)
  · intro inp dt car hground hup hdown hpos
    unfold applySpeedInput
    rw [if_pos (by simp [hground]), if_neg (by simp [hup]),
        if_neg (by simp [hdown]), if_pos hpos]
  · intro inp dt car hground hup
    unfold applySpeedInput
    rw [if_pos (by simp [hground]), if_pos hup]

/-- **C2 witness**: the clamp part of the amended theorem at a concrete
input — a grounded car at full speed holding forward for half a second stays
within `[−20, 40]`. -/
theorem C2_longitudinal_speed_clamp_witness :
    -(carMaxSpeed / 2) ≤
      (applySpeedInput ⟨true, false, false, false⟩ (1 / 2)
        { carInit with speed := 40 }).speed ∧
    (applySpeedInput ⟨true, false, false, false⟩ (1 / 2)
        { carInit with speed := 40 }).speed ≤ carMaxSpeed :=
  C2_longitudinal_speed_clamp.1 ⟨true, false, false, false⟩ (1 / 2)
    { carInit with speed := 40 } (by norm_num)
    (by norm_num [carInit, carMaxSpeed]) (by norm_num [carInit, carMaxSpeed])

/-- A freshly boosting game: car at exactly `maxSpeed`, full boost meter,
boost key held, empty world. -/
def boostingGame : GameState :=
  { car := { carInit with speed := 40 },
    boost := { setupSpeedBoost with active := true }, score := 0,
    obstacles := [], ramps := [], props := [], humans := [] }

/-- Per-prop random draws (unused: no props). -/
def propRandSeq : Nat → PropRand := fun _ => ⟨Vec3.zero, Vec3.zero⟩

/-- Per-pedestrian random draws (unused: no pedestrians). -/
def humanRandSeq : Nat → HumanRand := fun _ => humanRand0

/-- Prop rotation integration stub (no props are ever knocked over here). -/
def rotStepId : Vec3 → Vec3 → ℚ → Vec3 := fun r _ _ => r

/-- Forward input held. -/
def inputFwd : Input := ⟨true, false, false, false⟩

/-- No keys held. -/
def inputNone : Input := ⟨false, false, false, false⟩

/-- The game state after one boosted half-second tick of `boostingGame`. -/
def boostedTick1 : GameState :=
  gameUpdate trig0 propRandSeq humanRandSeq rotStepId inputFwd (1 / 2)
    boostingGame

/-- The state after a further half-second tick with the boost key released
(the key listeners toggle `boost.active` between ticks) and no input. -/
def boostedTick2 : GameState :=
  gameUpdate trig0 propRandSeq humanRandSeq rotStepId inputNone (1 / 2)
    { boostedTick1 with boost := { boostedTick1.boost with active := false } }

/-- The expected car state after tick 1. -/
def boostedTick1CarExpected : CarState :=
  { position := ⟨0, 0.5, 20⟩, rotation := ⟨0, 0, 0⟩, direction := ⟨0, 0, 1⟩,
    velocity := ⟨0, 0, 40⟩, speed := 72, isAirborne := false,
    verticalVelocity := 0, onRamp := false, rampHeight := 0,
    currentTurnAmount := 0, colliding := false,
    lastValidPosition := ⟨0, 0.5, 0⟩, isDrifting := false,
    currentRamp := none }

/-- The expected full game state after tick 1. -/
def boostedTick1Expected : GameState :=
  { car := boostedTick1CarExpected,
    boost := { available := 85, max := 100, rechargeRate := 10,
               depleteRate := 30, active := true, speedMultiplier := 1.8,
               currentMultiplier := 1.8, transitionSpeed := 2 },
    score := 0, obstacles := [], ramps := [], props := [], humans := [] }

/-- The expected full game state after tick 2 (boost key released). -/
def boostedTick2Expected : GameState :=
  { car := { position := ⟨0, 0.5, 54⟩, rotation := ⟨0, 0, 0⟩,
             direction := ⟨0, 0, 1⟩, velocity := ⟨0, 0, 68⟩, speed := 68,
             isAirborne := false, verticalVelocity := 0, onRamp := false,
             rampHeight := 0, currentTurnAmount := 0, colliding := false,
             lastValidPosition := ⟨0, 0.5, 20⟩, isDrifting := false,
             currentRamp := none },
    boost := { available := 90, max := 100, rechargeRate := 10,
               depleteRate := 30, active := false, speedMultiplier := 1.8,
               currentMultiplier := 1, transitionSpeed := 2 },
    score := 0, obstacles := [], ramps := [], props := [], humans := [] }

/-- **C2 counterexample**: the boost drives the grounded speed to
`40 · 1.8 = 72 > maxSpeed` on tick 1, and on the *following* tick — during
which no bounce occurs (`colliding = false`) and no boost is applied (the
multiplier has decayed to exactly 1) — the speed is **not** re-clamped to
`maxSpeed = 40`: it merely decays passively to `68 > 40`. -/
theorem C2_counterexample_excess_not_reclamped :
    boostedTick1 = boostedTick1Expected ∧
    boostedTick1Expected.car.speed = 72 ∧
    boostedTick2 = boostedTick2Expected ∧
    boostedTick2Expected.car.speed = 68 ∧
    boostedTick2Expected.car.colliding = false ∧
    boostedTick2Expected.boost.currentMultiplier = 1 ∧
    carMaxSpeed = 40 := by
  have h1 : boostedTick1 = boostedTick1Expected := by
    norm_num [boostedTick1, boostingGame, boostedTick1CarExpected,
      boostedTick1Expected, gameUpdate, updateBoost, carUpdate, applySpeedInput,
      applySteering, getSteeringIntensity, steeringIntensityFn, applyEulerXYZ,
      trig0, checkCollisions, applyVertical, applyBoost, enforceBoundary,
      checkRampInteractions, rampLoop, setupSpeedBoost, carInit, carMaxSpeed,
      carAcceleration, carBraking, carDeceleration, carGravity, turnInertia,
      driftThreshold, citySize, blockSize, roadWidth, Vec3.smul, Vec3.add,
      Vec3.sub, Vec3.dot, qsign, addScore, inputFwd, inputNone, propRandSeq,
      humanRandSeq, rotStepId]
  have h2 : boostedTick2 = boostedTick2Expected := by
    unfold boostedTick2
    rw [h1]
    norm_num [boostedTick1CarExpected, boostedTick1Expected,
      boostedTick2Expected, gameUpdate, updateBoost, carUpdate, applySpeedInput,
      applySteering, getSteeringIntensity, steeringIntensityFn, applyEulerXYZ,
      trig0, checkCollisions, applyVertical, applyBoost, enforceBoundary,
      checkRampInteractions, rampLoop, setupSpeedBoost, carInit, carMaxSpeed,
      carAcceleration, carBraking, carDeceleration, carGravity, turnInertia,
      driftThreshold, citySize, blockSize, roadWidth, Vec3.smul, Vec3.add,
      Vec3.sub, Vec3.dot, qsign, addScore, inputFwd, inputNone, propRandSeq,
      humanRandSeq, rotStepId]
  exact ⟨h1, by norm_num [boostedTick1Expected, boostedTick1CarExpected], h2,
    by norm_num [boostedTick2Expected], by norm_num [boostedTick2Expected],
    by norm_num [boostedTick2Expected], by norm_num [carMaxSpeed]⟩

/-- Every score award of the knockover arm is through `addScore` with one of
the positive constants 50 / 50+75 / 50+60, so the score never decreases. -/
theorem propKnockStep_score_mono (rand : PropRand) (carPosition : Vec3)
    (carSpeed : ℚ) (carDirection : Vec3) (carSpeedLive score : ℚ)
    (obj : PropObj) :
    score ≤ (propKnockStep rand carPosition carSpeed carDirection
      carSpeedLive score obj).2.1 := by
  unfold propKnockStep addScore
  dsimp only
  split_ifs <;> dsimp only <;> linarith

/-- The per-object prop step never decreases the score. -/
theorem updatePhysicsObject_score_mono (t : Trig) (rand : PropRand)
    (rotStep : Vec3 → Vec3 → ℚ → Vec3) (carPosition : Vec3) (carSpeed : ℚ)
    (carDirection : Vec3) (dt carSpeedLive score : ℚ) (obj : PropObj) :
    score ≤ (updatePhysicsObject t rand rotStep carPosition carSpeed
      carDirection dt carSpeedLive score obj).2.1 := by
  unfold updatePhysicsObject
  split_ifs <;>
    first
      | exact propKnockStep_score_mono rand carPosition carSpeed carDirection
          carSpeedLive score obj
      | exact le_refl score

/-- A pedestrian tick awards either nothing or the (nonnegative) point
value. -/
theorem updateHuman_score_nonneg (t : Trig) (rand : HumanRand)
    (carPosition : Vec3) (carRadius carSpeed : ℚ) (obstacles : List Obstacle)
    (cs bs rw dt : ℚ) (h : Human) (hpv : 0 ≤ h.pointValue) :
    0 ≤ (updateHuman t rand carPosition carRadius carSpeed obstacles
      cs bs rw dt h).2 := by
  unfold updateHuman killHuman
  dsimp only
  split_ifs <;> first | exact hpv | norm_num

/-- The prop fold of `gameUpdate` never decreases the score component. -/
theorem propsFold_score_mono (t : Trig) (prand : Nat → PropRand)
    (rotStep : Vec3 → Vec3 → ℚ → Vec3) (carPosition : Vec3) (carSpeed : ℚ)
    (carDirection : Vec3) (dt : ℚ) :
    ∀ (l : List (Nat × PropObj)) (acc : ℚ × ℚ × List PropObj),
      acc.2.1 ≤ (l.foldl
        (fun (acc : ℚ × ℚ × List PropObj) (p : Nat × PropObj) =>
          let res := updatePhysicsObject t (prand p.1) rotStep carPosition
            carSpeed carDirection dt acc.1 acc.2.1 p.2
          (res.1, res.2.1, res.2.2 :: acc.2.2)) acc).2.1
  | [], acc => le_refl _
  | p :: rest, acc =>
    le_trans
      (updatePhysicsObject_score_mono t (prand p.1) rotStep carPosition
        carSpeed carDirection dt acc.1 acc.2.1 p.2)
      (propsFold_score_mono t prand rotStep carPosition carSpeed carDirection
        dt rest _)

/-- The pedestrian fold of `gameUpdate` never decreases the score component
when every listed pedestrian has a nonnegative point value. -/
theorem humansFold_score_mono (t : Trig) (hrand : Nat → HumanRand)
    (carPos2 : Vec3) (carSpeed2 : ℚ) (obstacles : List Obstacle) (dt : ℚ) :
    ∀ (l : List (Nat × Human)) (acc : ℚ × List Human),
      (∀ p ∈ l, 0 ≤ p.2.pointValue) →
      acc.1 ≤ (l.foldl
        (fun (acc : ℚ × List Human) (p : Nat × Human) =>
          let res := updateHuman t (hrand p.1) carPos2 carBoundingRadius
            carSpeed2 obstacles citySize blockSize roadWidth dt p.2
          (addScore acc.1 res.2, res.1 :: acc.2)) acc).1
  | [], acc, _ => le_refl _
  | p :: rest, acc, hall =>
    le_trans
      (by
        have hd := updateHuman_score_nonneg t (hrand p.1) carPos2
          carBoundingRadius carSpeed2 obstacles citySize blockSize roadWidth
          dt p.2 (hall p (List.mem_cons_self p rest))
        show acc.1 ≤ addScore acc.1 (updateHuman t (hrand p.1) carPos2
          carBoundingRadius carSpeed2 obstacles citySize blockSize roadWidth
          dt p.2).2
        unfold addScore
        linarith)
      (humansFold_score_mono t hrand carPos2 carSpeed2 obstacles dt rest _
        (fun q hq => hall q (List.mem_cons_of_mem p hq)))

/-- **C10**: the session score is monotonically non-decreasing across a full
tick of `Game.update`: every score mutation goes through `addScore` with a
positive constant (50, 60, 75) or a pedestrian's nonnegative `pointValue`
(100 at creation), so the score after the tick is at least the score before
it. -/
theorem C10_score_monotone (t : Trig) (prand : Nat → PropRand)
    (hrand : Nat → HumanRand) (rotStep : Vec3 → Vec3 → ℚ → Vec3)
    (inp : Input) (dt : ℚ) (g : GameState)
    (hpv : ∀ h ∈ g.humans, 0 ≤ h.pointValue) :
    g.score ≤ (gameUpdate t prand hrand rotStep inp dt g).score := by
  have hp2 : ∀ p ∈ g.humans.enum, 0 ≤ p.2.pointValue := by
    intro p hp
    exact hpv p.2 (List.getElem?_mem (List.mem_enum_iff_getElem?.mp hp))
  unfold gameUpdate
  dsimp only
  refine le_trans ?_ (humansFold_score_mono t hrand _ _ g.obstacles dt
    g.humans.enum _ hp2)
  exact propsFold_score_mono t prand rotStep _ _ _ dt g.props.enum _

/-- A far-away pedestrian worth 100 points. -/
def distantHuman : Human :=
  { deadHuman with position := ⟨40, 0, 40⟩, state := HState.walking,
                   isDead := false }

/-- A game state with one pedestrian, for the C10 witness. -/
def scoredGame : GameState :=
  { boostingGame with score := 500, humans := [distantHuman] }

/-- **C10 witness**: the monotonicity theorem applied to a concrete
one-pedestrian game state at score 500. -/
theorem C10_score_monotone_witness :
    scoredGame.score ≤
      (gameUpdate trig0 propRandSeq humanRandSeq rotStepId inputFwd (1 / 2)
        scoredGame).score :=
  C10_score_monotone trig0 propRandSeq humanRandSeq rotStepId inputFwd (1 / 2)
    scoredGame
    (by
      intro h hh
      rw [show scoredGame.humans = [distantHuman] from rfl,
          List.mem_singleton] at hh
      subst hh
      norm_num [distantHuman, deadHuman])
